import Mathlib

/-!
Verification development for the buoyfinder web service (Go).

The repository is glue code: HTTP route handlers that sequence upstream
fetches (a station-directory XML document, raw buoy-reading text in several
fixed formats, and rendered chart images), call into the external `surfnerd`
parsing library, assemble a response container and serialize it to JSON.

We shallow-embed the handlers of `buoyfinder.go` as pure functions from an
environment `Env` — an oracle supplying the result of every upstream HTTP
call and every call into the external `surfnerd` library, the JSON/XML
(de)serializers of the Go standard library, and the clock — to a `Response`
together with a trace of upstream-call events (`List Event`).  The trace
makes the sequencing and counting claims (which fetch happens, in which
order, how many times) provable.

`strconv.ParseInt` (base 10, bit size 64) is embedded faithfully
(`goParseInt64`) because one claim depends on its exact error behavior.
`strconv.ParseFloat` and the remaining standard-library / external-library
functions are kept abstract as `Env` fields: no claim depends on their
internal semantics, only on how the repository's own code uses their
results.
-/

/-- A Go `error` value (we only ever observe its message). -/
structure GoError where
  msg : String
deriving DecidableEq, Repr

/-- Unix time in seconds: the embedding of Go `time.Time` values as they are
used here (`time.Unix(rawdate, 0)`, `time.Now()`). -/
abbrev Time := Int

/-- The embedding of Go `time.Duration` (only passed through untouched). -/
abbrev Duration := Int

/-- Go `time.Unix(sec, 0)` as used throughout `buoyfinder.go`. -/
def timeUnix (sec : Int) : Time := sec

/-- The result of `strconv.ParseInt`/`ParseFloat`: which kind of `NumError`
occurred, if any. -/
inductive NumError where
  | syn
  | range
deriving DecidableEq, Repr

/-- Decimal digit value of a character, as Go's `strconv` lower() digit
handling restricted to base 10: everything that is not `'0'..'9'` is a
syntax error. -/
def digitVal (c : Char) : Option Nat :=
  if '0' ≤ c ∧ c ≤ '9' then some (c.toNat - '0'.toNat) else none

/-- The accumulation loop of Go `strconv.ParseUint(s, 10, 64)`:
`cutoff = maxUint64/10 + 1`, `maxVal = 1<<64 - 1`; an invalid digit returns
`(0, ErrSyntax)` at once, an overflow returns `(maxVal, ErrRange)` at once. -/
def goParseUint64Loop : List Char → Nat → Nat × Option NumError
  | [], n => (n, none)
  | c :: rest, n =>
    match digitVal c with
    | none => (0, some .syn)
    | some d =>
      if n ≥ 1844674407370955162 then (18446744073709551615, some .range)
      else
        let n1 := n * 10 + d
        if n1 > 18446744073709551615 then (18446744073709551615, some .range)
        else goParseUint64Loop rest n1

/-- Go `strconv.ParseUint(s, 10, 64)` (empty string is a syntax error). -/
def goParseUint64 (s : List Char) : Nat × Option NumError :=
  match s with
  | [] => (0, some .syn)
  | _ :: _ => goParseUint64Loop s 0

/-- Go `strconv.ParseInt(s, 10, 64)`: strip an optional sign, run
`ParseUint`, and clamp to `[-1<<63, 1<<63 - 1]` with `ErrRange` on
overflow; a syntax error yields value `0`. -/
def goParseInt64 (s : String) : Int × Option NumError :=
  match s.toList with
  | [] => (0, some .syn)
  | c :: rest =>
    let neg : Bool := c = '-'
    let digits : List Char := if c = '+' ∨ c = '-' then rest else c :: rest
    let un : Nat := (goParseUint64 digits).1
    if (goParseUint64 digits).2 = some .syn then (0, some .syn)
    else if !neg ∧ un ≥ 9223372036854775808 then (9223372036854775807, some .range)
    else if neg ∧ un > 9223372036854775808 then (-9223372036854775808, some .range)
    else ((if neg then -(un : Int) else (un : Int)), none)

example : goParseInt64 "12345" = (12345, none) := by decide
example : goParseInt64 "-17" = (-17, none) := by decide
example : goParseInt64 "" = (0, some .syn) := by decide
example : goParseInt64 "12a" = (0, some .syn) := by decide
example : goParseInt64 "9223372036854775807" = (9223372036854775807, none) := by decide
example : goParseInt64 "9223372036854775808" = (9223372036854775807, some .range) := by
  decide
example : goParseInt64 "-9223372036854775808" = (-9223372036854775808, none) := by decide
example : goParseInt64 "-9223372036854775809" = (-9223372036854775808, some .range) := by
  decide

/-! ## Data model

Opaque external values (parsed station directories, parsed buoy readings)
are represented by `String` payloads: the repository's own code never looks
inside them, it only passes them between environment calls. -/

/-- Opaque result of `xml.Unmarshal` into `surfnerd.BuoyStations`. -/
abbrev Stations := String

/-- Opaque parsed reading data (`surfnerd.BuoyDataItem`) returned by
`FindConditionsForDateAndTime`. -/
abbrev BuoyData := String

/-- Unit systems of `surfnerd.ChangeUnits` (`surfnerd.Metric`,
`surfnerd.English`). -/
inductive UnitSystem where
  | metric
  | english
deriving DecidableEq, Repr

/-- A `surfnerd.Location` (latitude/longitude).  Go `float64` coordinates
are represented by rationals; none of the claims depends on float
rounding, only on the values being carried through unchanged. -/
structure Location where
  latitude : Rat
  longitude : Rat
deriving DecidableEq, Repr

/-- Go `surfnerd.NewLocationForLatLong(lat, lon)`: constructs the location
carried by the request. -/
def NewLocationForLatLong (lat lon : Rat) : Location := ⟨lat, lon⟩

/-- A `surfnerd.Buoy`: station identifier, location, and an opaque mutable
parsed-data state (the time-series records filled in by the surfnerd
parsing methods).  Omitted fields of the Go struct literal
`&surfnerd.Buoy{StationID: stationID}` take the zero value, matched by the
defaults here. -/
structure Buoy where
  stationID : String := ""
  location : Location := ⟨0, 0⟩
  state : String := ""
deriving DecidableEq, Repr

/-- The response container assembled by the API handlers.  The current
declaration of this struct is not under `src/`; the fields are
reconstructed from the struct literals in `buoyfinder.go` (which name all
eight fields) together with the older six-field declaration in
`src/unnamed/part_002`.  Omitted fields of a Go struct literal take the
zero value, matched by the defaults here. -/
structure ClosestBuoy where
  requestedLocation : Location := ⟨0, 0⟩
  requestedDate : Time := 0
  timeDiffFound : Duration := 0
  buoyStationID : String := ""
  buoyLocation : Location := ⟨0, 0⟩
  buoyData : BuoyData := ""
  directionalSpectraPlot : String := ""
  spectraDistributionPlot : String := ""
deriving DecidableEq, Repr

/-- The two chart kinds posted to the highcharts export service. -/
inductive ChartKind where
  | directional
  | spectraDistribution
deriving DecidableEq, Repr

/-- One upstream call (or external parse call) performed by a handler, in
program order.  The station identifier records which buoy's URL was
fetched (`buoy.CreateLatestReadingURL()` etc.). -/
inductive Event where
  | getStations
  | getLatestReading (stationID : String)
  | getStandardData (stationID : String)
  | getDirectionalSpectra (stationID : String)
  | getEnergySpectra (stationID : String)
  | postChart (kind : ChartKind) (stationID : String)
  | parseLatest
  | parseStandard
  | parseWaveSpectra
deriving DecidableEq, Repr

/-- An HTTP response as observed by the client: status code, the headers
explicitly set by the handler, body. -/
structure Response where
  status : Nat
  headers : List (String × String)
  body : String
deriving DecidableEq, Repr

/-- Go `http.Error(w, msg, code)`: plain-text error response (the standard
library appends a newline to the message). -/
def httpError (msg : String) (code : Nat) : Response :=
  { status := code
    headers := [("Content-Type", "text/plain; charset=utf-8")]
    body := msg ++ "\n" }

/-- The success response of the API handlers: the two headers set by every
JSON-writing handler, then the body. -/
def jsonResponse (body : String) : Response :=
  { status := 200
    headers := [("Content-Type", "application/json"), ("Access-Control-Allow-Origin", "*")]
    body := body }

/-- The HTML response of the buoy web view (the template writes directly;
no headers are set explicitly). -/
def htmlResponse (body : String) : Response :=
  { status := 200, headers := [], body := body }

/-- The indent argument of every `json.MarshalIndent(&container, "", "    ")`
call in `buoyfinder.go`: four spaces. -/
def jsonIndent : String := "    "

/-- The path variables of a request, as extracted by `mux.Vars`. -/
structure Request where
  lat : String := ""
  lon : String := ""
  epoch : String := ""
  station : String := ""
deriving DecidableEq, Repr

/-- The environment: a deterministic oracle for every upstream HTTP call
and every external-library / standard-library call the handlers make.
Fetch results are `Except GoError body`; an `error` models a failed
`client.Get`/`client.PostForm`.  `ioutil.ReadAll` errors are not modelled
separately (the handlers discard them; a failed read is subsumed by the
fetched body being arbitrary). -/
structure Env where
  /-- Body of `client.Get(surfnerd.ActiveBuoysURL)`. -/
  getStations : Except GoError String
  /-- Body of `client.Get(buoy.CreateLatestReadingURL())`, by station. -/
  getLatestReading : String → Except GoError String
  /-- Body of `client.Get(buoy.CreateStandardDataURL())`, by station. -/
  getStandardData : String → Except GoError String
  /-- Body of `client.Get(buoy.CreateDirectionalSpectraDataURL())`. -/
  getDirectionalSpectra : String → Except GoError String
  /-- Body of `client.Get(buoy.CreateEnergySpectraDataURL())`. -/
  getEnergySpectra : String → Except GoError String
  /-- Body of `client.PostForm("http://export.highcharts.com", data)` for
  the given chart kind, station and reading. -/
  postChart : ChartKind → String → BuoyData → Except GoError String
  /-- Result of `xml.Unmarshal(contents, &stations)`: the (possibly
  partially filled) stations value and the returned error, which the
  repository's code always discards. -/
  unmarshalStations : String → Stations × Option GoError
  /-- Result of `stations.FindClosestActiveWaveBuoy(location)`; `none`
  models the `nil` pointer. -/
  findClosestActiveWaveBuoy : Stations → Location → Option Buoy
  /-- Result of `stations.FindBuoyByID(stationID)`. -/
  findBuoyByID : Stations → String → Option Buoy
  /-- Result of `buoy.ParseRawLatestBuoyData(raw)`: the buoy's new parsed
  state and the returned error. -/
  parseRawLatestBuoyData : String → String → String × Option GoError
  /-- Result of `buoy.ParseRawStandardData(fields, count)`. -/
  parseRawStandardData : String → List String → Int → String × Option GoError
  /-- Result of `buoy.ParseRawWaveSpectraData(alphaLines, energyLines, count)`. -/
  parseRawWaveSpectraData : String → List String → List String → Int → String × Option GoError
  /-- Result of `buoy.FindConditionsForDateAndTime(date)`: a reading and
  the time difference found. -/
  findConditionsForDateAndTime : Buoy → Time → BuoyData × Duration
  /-- Result of `surfnerd` `ChangeUnits` applied to a reading (wave summary
  and all swell components together; the data is opaque here). -/
  changeUnits : BuoyData → UnitSystem → BuoyData
  /-- Result of `json.MarshalIndent(&container, "", indent)`. -/
  marshalClosestBuoy : ClosestBuoy → String → Except GoError String
  /-- Result of `stations.ToJSON()`: bytes written and the returned error
  (discarded by `findAllStationsHandler`). -/
  stationsToJSON : Stations → String × Option GoError
  /-- Result of `requestedBuoy.ToJSON()`. -/
  buoyToJSON : Buoy → Except GoError String
  /-- Result of `strconv.ParseFloat(s, 64)` (value, error); the Go standard
  library is kept abstract here, only the use of its result is modelled. -/
  parseFloat : String → Rat × Option NumError
  /-- Result of `base64.StdEncoding.EncodeToString` on a chart body. -/
  base64Encode : String → String
  /-- Result of `buoyTemplate.Execute` on the container. -/
  renderBuoyTemplate : ClosestBuoy → Except GoError String
  /-- Value of `time.Now()` during the request. -/
  now : Time
  /-- Value of `time.Since(d).Hours()` during the request (a real number;
  the handlers truncate it to `int` in various ways). -/
  sinceHours : Time → Rat

/-- Go `int(x)` conversion from `float64`: truncation toward zero. -/
def goIntOfRat (x : Rat) : Int :=
  if 0 ≤ x then x.floor else x.ceil

/-- Go `strings.Split(s, "\n")` applied to a fetched body. -/
def splitLines (s : String) : List String := s.splitOn "\n"

/-- Go `strings.Fields(s)` applied to a fetched body (split around
whitespace, dropping empty fields). -/
def goFields (s : String) : List String :=
  (s.split fun c => c = ' ' ∨ c = '\n' ∨ c = '\t' ∨ c = '\r').filter (· ≠ "")

/-! ## The fetch helpers of `buoyfinder.go`

Each helper returns its Go result together with the trace of upstream
calls it performed, in order. -/

/-- Embedding of `fetchBuoyWithID` (`buoyfinder.go:870-887`): one GET of
the active-buoys URL, discard the `xml.Unmarshal` error, look the station
up by ID; `nil` lookup becomes the fixed error message. -/
def fetchBuoyWithID (env : Env) (stationID : String) :
    Except GoError Buoy × List Event :=
  (match env.getStations with
   | .error stationsError => .error stationsError
   | .ok stationsContents =>
     match env.findBuoyByID (env.unmarshalStations stationsContents).1 stationID with
     | none => .error ⟨"Could not find the requested buoy"⟩
     | some requestedBuoy => .ok requestedBuoy,
   [.getStations])

/-- Embedding of `fetchClosestBuoy` (`buoyfinder.go:889-906`): one GET of
the active-buoys URL, discard the `xml.Unmarshal` error, find the closest
active wave buoy; `nil` becomes the fixed error message. -/
def fetchClosestBuoy (env : Env) (requestedLocation : Location) :
    Except GoError Buoy × List Event :=
  (match env.getStations with
   | .error stationsError => .error stationsError
   | .ok stationsContents =>
     match env.findClosestActiveWaveBuoy (env.unmarshalStations stationsContents).1
         requestedLocation with
     | none => .error ⟨"Could not find the closest buoy"⟩
     | some closestBuoy => .ok closestBuoy,
   [.getStations])

/-- Embedding of `fetchLatestBuoyData` (`buoyfinder.go:908-924`): GET the
latest-reading URL, then parse; the returned pair is the (possibly
mutated) buoy and the returned Go error. -/
def fetchLatestBuoyData (env : Env) (buoy : Buoy) :
    (Buoy × Option GoError) × List Event :=
  match env.getLatestReading buoy.stationID with
  | .error buoyError => ((buoy, some buoyError), [.getLatestReading buoy.stationID])
  | .ok buoyContents =>
    (({ buoy with state := (env.parseRawLatestBuoyData buoy.state buoyContents).1 },
      (env.parseRawLatestBuoyData buoy.state buoyContents).2),
     [.getLatestReading buoy.stationID, .parseLatest])

/-- Embedding of `fetchStandardBuoyData` (`buoyfinder.go:926-942`): GET the
standard meteorological data URL, split into fields, then parse. -/
def fetchStandardBuoyData (env : Env) (buoy : Buoy) (count : Int) :
    (Buoy × Option GoError) × List Event :=
  match env.getStandardData buoy.stationID with
  | .error buoyError => ((buoy, some buoyError), [.getStandardData buoy.stationID])
  | .ok buoyContents =>
    (({ buoy with state := (env.parseRawStandardData buoy.state (goFields buoyContents) count).1 },
      (env.parseRawStandardData buoy.state (goFields buoyContents) count).2),
     [.getStandardData buoy.stationID, .parseStandard])

/-- Embedding of `fetchDetailedWaveBuoyData` (`buoyfinder.go:944-967`): GET
the directional-spectra URL first; on success GET the energy-spectra URL;
on success parse both line lists with the single
`ParseRawWaveSpectraData` call. -/
def fetchDetailedWaveBuoyData (env : Env) (buoy : Buoy) (count : Int) :
    (Buoy × Option GoError) × List Event :=
  match env.getDirectionalSpectra buoy.stationID with
  | .error directionalError =>
    ((buoy, some directionalError), [.getDirectionalSpectra buoy.stationID])
  | .ok directionalContents =>
    match env.getEnergySpectra buoy.stationID with
    | .error energyError =>
      ((buoy, some energyError),
       [.getDirectionalSpectra buoy.stationID, .getEnergySpectra buoy.stationID])
    | .ok energyContents =>
      (({ buoy with
            state := (env.parseRawWaveSpectraData buoy.state (splitLines directionalContents)
              (splitLines energyContents) count).1 },
        (env.parseRawWaveSpectraData buoy.state (splitLines directionalContents)
          (splitLines energyContents) count).2),
       [.getDirectionalSpectra buoy.stationID, .getEnergySpectra buoy.stationID,
        .parseWaveSpectra])

/-- Embedding of `fetchDirectionalSpectraChart` (`buoyfinder.go:969-998`):
POST the chart options (built from the reading; the option-string assembly
does not affect any claim and is folded into the oracle argument); on
transport error return `("", err)`, else the base64-encoded body. -/
def fetchDirectionalSpectraChart (env : Env) (stationID : String) (buoyData : BuoyData) :
    (String × Option GoError) × List Event :=
  match env.postChart .directional stationID buoyData with
  | .error err => (("", some err), [.postChart .directional stationID])
  | .ok rawChart =>
    ((env.base64Encode rawChart, none), [.postChart .directional stationID])

/-- Embedding of `fetchSpectraDistributionChart` (`buoyfinder.go:1000-1029`). -/
def fetchSpectraDistributionChart (env : Env) (stationID : String) (buoyData : BuoyData) :
    (String × Option GoError) × List Event :=
  match env.postChart .spectraDistribution stationID buoyData with
  | .error err => (("", some err), [.postChart .spectraDistribution stationID])
  | .ok rawChart =>
    ((env.base64Encode rawChart, none), [.postChart .spectraDistribution stationID])

/-! ## The request handlers of `buoyfinder.go` -/

/-- Parameter coercion shared by the coordinate handlers:
`latitude, _ := strconv.ParseFloat(vars["lat"], 64)` (error discarded) and
likewise for longitude, then `surfnerd.NewLocationForLatLong`. -/
def requestedLocationOf (env : Env) (req : Request) : Location :=
  NewLocationForLatLong (env.parseFloat req.lat).1 (env.parseFloat req.lon).1

/-- Parameter coercion of the epoch path variable:
`rawdate, _ := strconv.ParseInt(vars["epoch"], 10, 64)` (error discarded),
then `time.Unix(rawdate, 0)`. -/
def requestedEpochDate (req : Request) : Time := timeUnix (goParseInt64 req.epoch).1

/-- Go `int(time.Since(d).Hours())`. -/
def sinceHoursCount (env : Env) (d : Time) : Int := goIntOfRat (env.sinceHours d)

/-- Go `int(time.Since(d).Hours() * 2)`. -/
def sinceHoursTimes2Count (env : Env) (d : Time) : Int := goIntOfRat (env.sinceHours d * 2)

/-- Embedding of `findAllStationsHandler` (`buoyfinder.go:126-142`).  The
GET error is discarded (`stationsResponse, _ := client.Get(...)`); on a
transport failure the Go code dereferences the nil response
(`stationsResponse.Body`) and panics, modelled as `none` (no response is
written).  The `xml.Unmarshal` and `ToJSON` errors are discarded and the
success headers and body are always written. -/
def findAllStationsHandler (env : Env) : Option Response × List Event :=
  match env.getStations with
  | .error _ => (none, [.getStations])
  | .ok stationsContents =>
    (some (jsonResponse (env.stationsToJSON (env.unmarshalStations stationsContents).1).1),
     [.getStations])

/-- Embedding of `findStationInfoHandler` (`buoyfinder.go:144-167`). -/
def findStationInfoHandler (env : Env) (req : Request) : Response × List Event :=
  let buoyRes := fetchBuoyWithID env req.station
  match buoyRes.1 with
  | .error requestedBuoyError => (httpError requestedBuoyError.msg 500, buoyRes.2)
  | .ok requestedBuoy =>
    match env.buoyToJSON requestedBuoy with
    | .error buoyJsonErr => (httpError buoyJsonErr.msg 500, buoyRes.2)
    | .ok buoyJson => (jsonResponse buoyJson, buoyRes.2)

/-- Embedding of `closestWaveDateHandler` (`buoyfinder.go:169-219`). -/
def closestWaveDateHandler (env : Env) (req : Request) : Response × List Event :=
  let requestedLocation := requestedLocationOf env req
  let requestedDate := requestedEpochDate req
  let closestRes := fetchClosestBuoy env requestedLocation
  match closestRes.1 with
  | .error closestError => (httpError closestError.msg 500, closestRes.2)
  | .ok closestBuoy =>
    let count := sinceHoursCount env requestedDate
    let dataRes := fetchDetailedWaveBuoyData env closestBuoy count
    match dataRes.1.2 with
    | some fetchBuoyError => (httpError fetchBuoyError.msg 500, closestRes.2 ++ dataRes.2)
    | none =>
      let closestBuoy2 := dataRes.1.1
      let found := env.findConditionsForDateAndTime closestBuoy2 requestedDate
      let closestBuoyContainer : ClosestBuoy :=
        { requestedLocation := requestedLocation
          requestedDate := requestedDate
          timeDiffFound := found.2
          buoyStationID := closestBuoy2.stationID
          buoyLocation := closestBuoy2.location
          buoyData := found.1 }
      match env.marshalClosestBuoy closestBuoyContainer jsonIndent with
      | .error closestBuoyJsonErr =>
        (httpError closestBuoyJsonErr.msg 500, closestRes.2 ++ dataRes.2)
      | .ok closestBuoyJson => (jsonResponse closestBuoyJson, closestRes.2 ++ dataRes.2)

/-- Embedding of `closestWaveChartsDateHandler` (`buoyfinder.go:221-283`):
like `closestWaveDateHandler`, with the two chart fetches whose errors
only blank the corresponding plot field. -/
def closestWaveChartsDateHandler (env : Env) (req : Request) : Response × List Event :=
  let requestedLocation := requestedLocationOf env req
  let requestedDate := requestedEpochDate req
  let closestRes := fetchClosestBuoy env requestedLocation
  match closestRes.1 with
  | .error closestError => (httpError closestError.msg 500, closestRes.2)
  | .ok closestBuoy =>
    let count := sinceHoursCount env requestedDate
    let dataRes := fetchDetailedWaveBuoyData env closestBuoy count
    match dataRes.1.2 with
    | some fetchBuoyError => (httpError fetchBuoyError.msg 500, closestRes.2 ++ dataRes.2)
    | none =>
      let closestBuoy2 := dataRes.1.1
      let found := env.findConditionsForDateAndTime closestBuoy2 requestedDate
      let directionalRes := fetchDirectionalSpectraChart env closestBuoy2.stationID found.1
      let directionalPlot :=
        match directionalRes.1.2 with
        | some _ => ""
        | none => directionalRes.1.1
      let spectraRes := fetchSpectraDistributionChart env closestBuoy2.stationID found.1
      let spectraPlot :=
        match spectraRes.1.2 with
        | some _ => ""
        | none => spectraRes.1.1
      let trace := closestRes.2 ++ dataRes.2 ++ directionalRes.2 ++ spectraRes.2
      let closestBuoyContainer : ClosestBuoy :=
        { requestedLocation := requestedLocation
          requestedDate := requestedDate
          timeDiffFound := found.2
          buoyStationID := closestBuoy2.stationID
          buoyLocation := closestBuoy2.location
          buoyData := found.1
          directionalSpectraPlot := directionalPlot
          spectraDistributionPlot := spectraPlot }
      match env.marshalClosestBuoy closestBuoyContainer jsonIndent with
      | .error closestBuoyJsonErr => (httpError closestBuoyJsonErr.msg 500, trace)
      | .ok closestBuoyJson => (jsonResponse closestBuoyJson, trace)

/-- Embedding of `closestWeatherDateHandler` (`buoyfinder.go:285-335`). -/
def closestWeatherDateHandler (env : Env) (req : Request) : Response × List Event :=
  let requestedLocation := requestedLocationOf env req
  let requestedDate := requestedEpochDate req
  let closestRes := fetchClosestBuoy env requestedLocation
  match closestRes.1 with
  | .error closestError => (httpError closestError.msg 500, closestRes.2)
  | .ok closestBuoy =>
    let count := sinceHoursCount env requestedDate
    let dataRes := fetchStandardBuoyData env closestBuoy count
    match dataRes.1.2 with
    | some fetchBuoyError => (httpError fetchBuoyError.msg 500, closestRes.2 ++ dataRes.2)
    | none =>
      let closestBuoy2 := dataRes.1.1
      let found := env.findConditionsForDateAndTime closestBuoy2 requestedDate
      let closestBuoyContainer : ClosestBuoy :=
        { requestedLocation := requestedLocation
          requestedDate := requestedDate
          timeDiffFound := found.2
          buoyStationID := closestBuoy2.stationID
          buoyLocation := closestBuoy2.location
          buoyData := found.1 }
      match env.marshalClosestBuoy closestBuoyContainer jsonIndent with
      | .error closestBuoyJsonErr =>
        (httpError closestBuoyJsonErr.msg 500, closestRes.2 ++ dataRes.2)
      | .ok closestBuoyJson => (jsonResponse closestBuoyJson, closestRes.2 ++ dataRes.2)

/-- Embedding of `closestLatestHandler` (`buoyfinder.go:337-389`): latest
reading for the closest buoy; the reading's units are changed to metric
before serialization; `requestedDate` is `time.Now()`. -/
def closestLatestHandler (env : Env) (req : Request) : Response × List Event :=
  let requestedLocation := requestedLocationOf env req
  let closestRes := fetchClosestBuoy env requestedLocation
  match closestRes.1 with
  | .error closestError => (httpError closestError.msg 500, closestRes.2)
  | .ok closestBuoy =>
    let dataRes := fetchLatestBuoyData env closestBuoy
    match dataRes.1.2 with
    | some buoyFetchError => (httpError buoyFetchError.msg 500, closestRes.2 ++ dataRes.2)
    | none =>
      let closestBuoy2 := dataRes.1.1
      let requestedDate := env.now
      let found := env.findConditionsForDateAndTime closestBuoy2 requestedDate
      let closestBuoyData := env.changeUnits found.1 .metric
      let closestBuoyContainer : ClosestBuoy :=
        { requestedLocation := requestedLocation
          requestedDate := requestedDate
          timeDiffFound := found.2
          buoyStationID := closestBuoy2.stationID
          buoyLocation := closestBuoy2.location
          buoyData := closestBuoyData }
      match env.marshalClosestBuoy closestBuoyContainer jsonIndent with
      | .error closestBuoyJsonErr =>
        (httpError closestBuoyJsonErr.msg 500, closestRes.2 ++ dataRes.2)
      | .ok closestBuoyJson => (jsonResponse closestBuoyJson, closestRes.2 ++ dataRes.2)

/-- Embedding of `closestLatestWaveHandler` (`buoyfinder.go:391-440`): the
route carries no epoch variable, yet the handler still parses
`vars["epoch"]` (yielding 0 for the absent variable) and uses the
resulting date; record count is fixed to 1. -/
def closestLatestWaveHandler (env : Env) (req : Request) : Response × List Event :=
  let requestedLocation := requestedLocationOf env req
  let requestedDate := requestedEpochDate req
  let closestRes := fetchClosestBuoy env requestedLocation
  match closestRes.1 with
  | .error closestError => (httpError closestError.msg 500, closestRes.2)
  | .ok closestBuoy =>
    let dataRes := fetchDetailedWaveBuoyData env closestBuoy 1
    match dataRes.1.2 with
    | some fetchBuoyError => (httpError fetchBuoyError.msg 500, closestRes.2 ++ dataRes.2)
    | none =>
      let closestBuoy2 := dataRes.1.1
      let found := env.findConditionsForDateAndTime closestBuoy2 requestedDate
      let closestBuoyContainer : ClosestBuoy :=
        { requestedLocation := requestedLocation
          requestedDate := requestedDate
          timeDiffFound := found.2
          buoyStationID := closestBuoy2.stationID
          buoyLocation := closestBuoy2.location
          buoyData := found.1 }
      match env.marshalClosestBuoy closestBuoyContainer jsonIndent with
      | .error closestBuoyJsonErr =>
        (httpError closestBuoyJsonErr.msg 500, closestRes.2 ++ dataRes.2)
      | .ok closestBuoyJson => (jsonResponse closestBuoyJson, closestRes.2 ++ dataRes.2)

/-- Embedding of `closestLatestWaveChartsHandler` (`buoyfinder.go:442-503`). -/
def closestLatestWaveChartsHandler (env : Env) (req : Request) : Response × List Event :=
  let requestedLocation := requestedLocationOf env req
  let requestedDate := requestedEpochDate req
  let closestRes := fetchClosestBuoy env requestedLocation
  match closestRes.1 with
  | .error closestError => (httpError closestError.msg 500, closestRes.2)
  | .ok closestBuoy =>
    let dataRes := fetchDetailedWaveBuoyData env closestBuoy 1
    match dataRes.1.2 with
    | some fetchBuoyError => (httpError fetchBuoyError.msg 500, closestRes.2 ++ dataRes.2)
    | none =>
      let closestBuoy2 := dataRes.1.1
      let found := env.findConditionsForDateAndTime closestBuoy2 requestedDate
      let directionalRes := fetchDirectionalSpectraChart env closestBuoy2.stationID found.1
      let directionalPlot :=
        match directionalRes.1.2 with
        | some _ => ""
        | none => directionalRes.1.1
      let spectraRes := fetchSpectraDistributionChart env closestBuoy2.stationID found.1
      let spectraPlot :=
        match spectraRes.1.2 with
        | some _ => ""
        | none => spectraRes.1.1
      let trace := closestRes.2 ++ dataRes.2 ++ directionalRes.2 ++ spectraRes.2
      let closestBuoyContainer : ClosestBuoy :=
        { requestedLocation := requestedLocation
          requestedDate := requestedDate
          timeDiffFound := found.2
          buoyStationID := closestBuoy2.stationID
          buoyLocation := closestBuoy2.location
          buoyData := found.1
          directionalSpectraPlot := directionalPlot
          spectraDistributionPlot := spectraPlot }
      match env.marshalClosestBuoy closestBuoyContainer jsonIndent with
      | .error closestBuoyJsonErr => (httpError closestBuoyJsonErr.msg 500, trace)
      | .ok closestBuoyJson => (jsonResponse closestBuoyJson, trace)

/-- Embedding of `closestLatestWeatherHandler` (`buoyfinder.go:505-554`). -/
def closestLatestWeatherHandler (env : Env) (req : Request) : Response × List Event :=
  let requestedLocation := requestedLocationOf env req
  let requestedDate := requestedEpochDate req
  let closestRes := fetchClosestBuoy env requestedLocation
  match closestRes.1 with
  | .error closestError => (httpError closestError.msg 500, closestRes.2)
  | .ok closestBuoy =>
    let dataRes := fetchStandardBuoyData env closestBuoy 1
    match dataRes.1.2 with
    | some fetchBuoyError => (httpError fetchBuoyError.msg 500, closestRes.2 ++ dataRes.2)
    | none =>
      let closestBuoy2 := dataRes.1.1
      let found := env.findConditionsForDateAndTime closestBuoy2 requestedDate
      let closestBuoyContainer : ClosestBuoy :=
        { requestedLocation := requestedLocation
          requestedDate := requestedDate
          timeDiffFound := found.2
          buoyStationID := closestBuoy2.stationID
          buoyLocation := closestBuoy2.location
          buoyData := found.1 }
      match env.marshalClosestBuoy closestBuoyContainer jsonIndent with
      | .error closestBuoyJsonErr =>
        (httpError closestBuoyJsonErr.msg 500, closestRes.2 ++ dataRes.2)
      | .ok closestBuoyJson => (jsonResponse closestBuoyJson, closestRes.2 ++ dataRes.2)

/-- Embedding of `latestIDHandler` (`buoyfinder.go:556-598`): the buoy is
constructed directly from the station ID (`&surfnerd.Buoy{StationID:
stationID}`), no station-directory fetch; units changed to metric. -/
def latestIDHandler (env : Env) (req : Request) : Response × List Event :=
  let requestedBuoy : Buoy := { stationID := req.station }
  let dataRes := fetchLatestBuoyData env requestedBuoy
  match dataRes.1.2 with
  | some buoyFetchError => (httpError buoyFetchError.msg 500, dataRes.2)
  | none =>
    let requestedBuoy2 := dataRes.1.1
    let requestedDate := env.now
    let found := env.findConditionsForDateAndTime requestedBuoy2 requestedDate
    let requestedBuoyData := env.changeUnits found.1 .metric
    let requestedBuoyContainer : ClosestBuoy :=
      { requestedDate := requestedDate
        timeDiffFound := found.2
        buoyStationID := requestedBuoy2.stationID
        buoyData := requestedBuoyData }
    match env.marshalClosestBuoy requestedBuoyContainer jsonIndent with
    | .error requestedBuoyJsonErr => (httpError requestedBuoyJsonErr.msg 500, dataRes.2)
    | .ok requestedBuoyJson => (jsonResponse requestedBuoyJson, dataRes.2)

/-- Embedding of `latestWaveIDHandler` (`buoyfinder.go:600-637`). -/
def latestWaveIDHandler (env : Env) (req : Request) : Response × List Event :=
  let requestedBuoy : Buoy := { stationID := req.station }
  let dataRes := fetchDetailedWaveBuoyData env requestedBuoy 1
  match dataRes.1.2 with
  | some buoyFetchError => (httpError buoyFetchError.msg 500, dataRes.2)
  | none =>
    let requestedBuoy2 := dataRes.1.1
    let requestedDate := env.now
    let found := env.findConditionsForDateAndTime requestedBuoy2 requestedDate
    let requestedBuoyContainer : ClosestBuoy :=
      { requestedDate := requestedDate
        timeDiffFound := found.2
        buoyStationID := requestedBuoy2.stationID
        buoyData := found.1 }
    match env.marshalClosestBuoy requestedBuoyContainer jsonIndent with
    | .error requestedBuoyJsonErr => (httpError requestedBuoyJsonErr.msg 500, dataRes.2)
    | .ok requestedBuoyJson => (jsonResponse requestedBuoyJson, dataRes.2)

/-- Embedding of `latestWaveIDChartsHandler` (`buoyfinder.go:639-688`); the
chart fetches use the `stationID` path variable directly. -/
def latestWaveIDChartsHandler (env : Env) (req : Request) : Response × List Event :=
  let requestedBuoy : Buoy := { stationID := req.station }
  let dataRes := fetchDetailedWaveBuoyData env requestedBuoy 1
  match dataRes.1.2 with
  | some buoyFetchError => (httpError buoyFetchError.msg 500, dataRes.2)
  | none =>
    let requestedBuoy2 := dataRes.1.1
    let requestedDate := env.now
    let found := env.findConditionsForDateAndTime requestedBuoy2 requestedDate
    let directionalRes := fetchDirectionalSpectraChart env req.station found.1
    let directionalPlot :=
      match directionalRes.1.2 with
      | some _ => ""
      | none => directionalRes.1.1
    let spectraRes := fetchSpectraDistributionChart env req.station found.1
    let spectraPlot :=
      match spectraRes.1.2 with
      | some _ => ""
      | none => spectraRes.1.1
    let trace := dataRes.2 ++ directionalRes.2 ++ spectraRes.2
    let requestedBuoyContainer : ClosestBuoy :=
      { requestedDate := requestedDate
        timeDiffFound := found.2
        buoyStationID := requestedBuoy2.stationID
        buoyData := found.1
        directionalSpectraPlot := directionalPlot
        spectraDistributionPlot := spectraPlot }
    match env.marshalClosestBuoy requestedBuoyContainer jsonIndent with
    | .error requestedBuoyJsonErr => (httpError requestedBuoyJsonErr.msg 500, trace)
    | .ok requestedBuoyJson => (jsonResponse requestedBuoyJson, trace)

/-- Embedding of `latestWeatherIDHandler` (`buoyfinder.go:690-727`). -/
def latestWeatherIDHandler (env : Env) (req : Request) : Response × List Event :=
  let requestedBuoy : Buoy := { stationID := req.station }
  let dataRes := fetchStandardBuoyData env requestedBuoy 1
  match dataRes.1.2 with
  | some buoyFetchError => (httpError buoyFetchError.msg 500, dataRes.2)
  | none =>
    let requestedBuoy2 := dataRes.1.1
    let requestedDate := env.now
    let found := env.findConditionsForDateAndTime requestedBuoy2 requestedDate
    let requestedBuoyContainer : ClosestBuoy :=
      { requestedDate := requestedDate
        timeDiffFound := found.2
        buoyStationID := requestedBuoy2.stationID
        buoyData := found.1 }
    match env.marshalClosestBuoy requestedBuoyContainer jsonIndent with
    | .error requestedBuoyJsonErr => (httpError requestedBuoyJsonErr.msg 500, dataRes.2)
    | .ok requestedBuoyJson => (jsonResponse requestedBuoyJson, dataRes.2)

/-- Embedding of `dateWaveIDHandler` (`buoyfinder.go:729-770`). -/
def dateWaveIDHandler (env : Env) (req : Request) : Response × List Event :=
  let requestedDate := requestedEpochDate req
  let requestedBuoy : Buoy := { stationID := req.station }
  let count := sinceHoursTimes2Count env requestedDate
  let dataRes := fetchDetailedWaveBuoyData env requestedBuoy count
  match dataRes.1.2 with
  | some fetchBuoyError => (httpError fetchBuoyError.msg 500, dataRes.2)
  | none =>
    let requestedBuoy2 := dataRes.1.1
    let found := env.findConditionsForDateAndTime requestedBuoy2 requestedDate
    let requestedBuoyContainer : ClosestBuoy :=
      { requestedDate := requestedDate
        timeDiffFound := found.2
        buoyStationID := requestedBuoy2.stationID
        buoyData := found.1 }
    match env.marshalClosestBuoy requestedBuoyContainer jsonIndent with
    | .error requestedBuoyJsonErr => (httpError requestedBuoyJsonErr.msg 500, dataRes.2)
    | .ok requestedBuoyJson => (jsonResponse requestedBuoyJson, dataRes.2)

/-- Embedding of `dateWaveIDChartsHandler` (`buoyfinder.go:772-825`). -/
def dateWaveIDChartsHandler (env : Env) (req : Request) : Response × List Event :=
  let requestedDate := requestedEpochDate req
  let requestedBuoy : Buoy := { stationID := req.station }
  let count := sinceHoursTimes2Count env requestedDate
  let dataRes := fetchDetailedWaveBuoyData env requestedBuoy count
  match dataRes.1.2 with
  | some fetchBuoyError => (httpError fetchBuoyError.msg 500, dataRes.2)
  | none =>
    let requestedBuoy2 := dataRes.1.1
    let found := env.findConditionsForDateAndTime requestedBuoy2 requestedDate
    let directionalRes := fetchDirectionalSpectraChart env req.station found.1
    let directionalPlot :=
      match directionalRes.1.2 with
      | some _ => ""
      | none => directionalRes.1.1
    let spectraRes := fetchSpectraDistributionChart env req.station found.1
    let spectraPlot :=
      match spectraRes.1.2 with
      | some _ => ""
      | none => spectraRes.1.1
    let trace := dataRes.2 ++ directionalRes.2 ++ spectraRes.2
    let requestedBuoyContainer : ClosestBuoy :=
      { requestedDate := requestedDate
        timeDiffFound := found.2
        buoyStationID := requestedBuoy2.stationID
        buoyData := found.1
        directionalSpectraPlot := directionalPlot
        spectraDistributionPlot := spectraPlot }
    match env.marshalClosestBuoy requestedBuoyContainer jsonIndent with
    | .error requestedBuoyJsonErr => (httpError requestedBuoyJsonErr.msg 500, trace)
    | .ok requestedBuoyJson => (jsonResponse requestedBuoyJson, trace)

/-- Embedding of `dateWeatherIDHandler` (`buoyfinder.go:827-868`). -/
def dateWeatherIDHandler (env : Env) (req : Request) : Response × List Event :=
  let requestedDate := requestedEpochDate req
  let requestedBuoy : Buoy := { stationID := req.station }
  let count := sinceHoursTimes2Count env requestedDate
  let dataRes := fetchStandardBuoyData env requestedBuoy count
  match dataRes.1.2 with
  | some fetchBuoyError => (httpError fetchBuoyError.msg 500, dataRes.2)
  | none =>
    let requestedBuoy2 := dataRes.1.1
    let found := env.findConditionsForDateAndTime requestedBuoy2 requestedDate
    let requestedBuoyContainer : ClosestBuoy :=
      { requestedDate := requestedDate
        timeDiffFound := found.2
        buoyStationID := requestedBuoy2.stationID
        buoyData := found.1 }
    match env.marshalClosestBuoy requestedBuoyContainer jsonIndent with
    | .error requestedBuoyJsonErr => (httpError requestedBuoyJsonErr.msg 500, dataRes.2)
    | .ok requestedBuoyJson => (jsonResponse requestedBuoyJson, dataRes.2)

/-- Embedding of `buoyViewHandler` (`buoyfinder.go:67-118`): the buoy web
view.  `requestedDate` is `time.Now()`; record count is
`int(time.Since(requestedDate).Hours()*2) + 1`; the charts are fetched
before the units of the reading are changed to English; the response is
the rendered buoy template. -/
def buoyViewHandler (env : Env) (req : Request) : Response × List Event :=
  let requestedBuoy : Buoy := { stationID := req.station }
  let requestedDate := env.now
  let count := sinceHoursTimes2Count env requestedDate + 1
  let dataRes := fetchDetailedWaveBuoyData env requestedBuoy count
  match dataRes.1.2 with
  | some fetchBuoyError => (httpError fetchBuoyError.msg 500, dataRes.2)
  | none =>
    let requestedBuoy2 := dataRes.1.1
    let found := env.findConditionsForDateAndTime requestedBuoy2 requestedDate
    let directionalRes := fetchDirectionalSpectraChart env req.station found.1
    let directionalPlot :=
      match directionalRes.1.2 with
      | some _ => ""
      | none => directionalRes.1.1
    let spectraRes := fetchSpectraDistributionChart env req.station found.1
    let spectraPlot :=
      match spectraRes.1.2 with
      | some _ => ""
      | none => spectraRes.1.1
    let trace := dataRes.2 ++ directionalRes.2 ++ spectraRes.2
    let requestedBuoyData := env.changeUnits found.1 .english
    let requestedBuoyContainer : ClosestBuoy :=
      { requestedDate := requestedDate
        timeDiffFound := found.2
        buoyStationID := requestedBuoy2.stationID
        buoyData := requestedBuoyData
        directionalSpectraPlot := directionalPlot
        spectraDistributionPlot := spectraPlot }
    match env.renderBuoyTemplate requestedBuoyContainer with
    | .error err => (httpError err.msg 500, trace)
    | .ok html => (htmlResponse html, trace)

/-! ## The color gradient of `gradient.go`

Colors of the external `go-colorful` library are kept abstract (a type
parameter); `BlendHcl` and `Clamped` are oracle parameters.  Keypoint
positions are Go `float64` values embedded as rationals: the claims are
about the control flow of the interpolation loop, which only compares and
linearly rescales positions. -/

/-- One keypoint of a `Gradient`: a color and a position in `[0,1]`. -/
structure GradientKeypoint (C : Type) where
  col : C
  pos : Rat
deriving DecidableEq, Repr

/-- The `Gradient` slice type of `gradient.go`. -/
abbrev Gradient (C : Type) : Type := List (GradientKeypoint C)

/-- The loop of `GetInterpolatedColorFor` (`gradient.go:16-24`), walking
the adjacent keypoint pairs `(self[i], self[i+1])` in order; `some`
models the early `return` from inside the loop, `none` falling through. -/
def interpolateLoop {C : Type} (blendHcl : C → C → Rat → C) (clamped : C → C) :
    Gradient C → Rat → Option C
  | c1 :: c2 :: rest, t =>
    if c1.pos ≤ t ∧ t ≤ c2.pos then
      some (clamped (blendHcl c1.col c2.col ((t - c1.pos) / (c2.pos - c1.pos))))
    else interpolateLoop blendHcl clamped (c2 :: rest) t
  | _, _ => none

/-- Embedding of `Gradient.GetInterpolatedColorFor` (`gradient.go:15-28`):
run the loop; on fall-through return the last keypoint's color
(`self[len(self)-1].Col`), which on an empty gradient is an out-of-bounds
index, modelled as `none`. -/
def GetInterpolatedColorFor {C : Type} (blendHcl : C → C → Rat → C) (clamped : C → C)
    (self : Gradient C) (t : Rat) : Option C :=
  match interpolateLoop blendHcl clamped self t with
  | some c => some c
  | none => self.getLast?.map GradientKeypoint.col

/-- Embedding of `NewGradient` (`gradient.go:40-57`): the 11 fixed
keypoints; `MustParseHex` of the external color library is an oracle. -/
def NewGradient {C : Type} (mustParseHex : String → C) : Gradient C :=
  [⟨mustParseHex "#9e0142", 0.0⟩,
   ⟨mustParseHex "#d53e4f", 0.1⟩,
   ⟨mustParseHex "#f46d43", 0.2⟩,
   ⟨mustParseHex "#fdae61", 0.3⟩,
   ⟨mustParseHex "#fee090", 0.4⟩,
   ⟨mustParseHex "#ffffbf", 0.5⟩,
   ⟨mustParseHex "#e6f598", 0.6⟩,
   ⟨mustParseHex "#abdda4", 0.7⟩,
   ⟨mustParseHex "#66c2a5", 0.8⟩,
   ⟨mustParseHex "#3288bd", 0.9⟩,
   ⟨mustParseHex "#5e4fa2", 1.0⟩]

/-- Decidable test used to state the interval claims: does some adjacent
keypoint pair `(c1, c2)` of the list satisfy `c1.pos ≤ t ∧ t ≤ c2.pos`
(the loop's interval test)? -/
def hasWindow {C : Type} (t : Rat) : List (GradientKeypoint C) → Bool
  | c1 :: c2 :: rest => (decide (c1.pos ≤ t ∧ t ≤ c2.pos)) || hasWindow t (c2 :: rest)
  | _ => false

/-! ## Trace observations -/

/-- Number of station-directory GETs in a trace. -/
def countStations : List Event → Nat
  | [] => 0
  | .getStations :: rest => countStations rest + 1
  | _ :: rest => countStations rest

theorem countStations_append (l₁ l₂ : List Event) :
    countStations (l₁ ++ l₂) = countStations l₁ + countStations l₂ := by
  induction l₁ with
  | nil => simp [countStations]
  | cons e rest ih =>
    cases e <;> simp [countStations, ih]
    omega

/-- The fixed upstream reading formats of the station reading provider. -/
inductive ReadingFormat where
  | latestReading
  | standardMet
  | waveSpectra
deriving DecidableEq, Repr

/-- Which reading format, if any, an upstream event fetches. -/
def eventReadingFormat : Event → Option ReadingFormat
  | .getLatestReading _ => some .latestReading
  | .getStandardData _ => some .standardMet
  | .getDirectionalSpectra _ => some .waveSpectra
  | .getEnergySpectra _ => some .waveSpectra
  | _ => none

/-- An event is compatible with format `fmt` when it is no reading fetch
at all or fetches format `fmt`. -/
def eventFormatOK (fmt : ReadingFormat) (e : Event) : Bool :=
  match eventReadingFormat e with
  | none => true
  | some f => f = fmt

/-! ### Trace shapes of the fetch helpers -/

theorem fetchClosestBuoy_trace (env : Env) (loc : Location) :
    (fetchClosestBuoy env loc).2 = [.getStations] := rfl

theorem fetchBuoyWithID_trace (env : Env) (sid : String) :
    (fetchBuoyWithID env sid).2 = [.getStations] := rfl

theorem fetchLatestBuoyData_trace (env : Env) (buoy : Buoy) :
    (fetchLatestBuoyData env buoy).2 = [.getLatestReading buoy.stationID] ∨
      (fetchLatestBuoyData env buoy).2 =
        [.getLatestReading buoy.stationID, .parseLatest] := by
  unfold fetchLatestBuoyData
  cases env.getLatestReading buoy.stationID <;> simp

theorem fetchStandardBuoyData_trace (env : Env) (buoy : Buoy) (count : Int) :
    (fetchStandardBuoyData env buoy count).2 = [.getStandardData buoy.stationID] ∨
      (fetchStandardBuoyData env buoy count).2 =
        [.getStandardData buoy.stationID, .parseStandard] := by
  unfold fetchStandardBuoyData
  cases env.getStandardData buoy.stationID <;> simp

theorem fetchDetailedWaveBuoyData_trace (env : Env) (buoy : Buoy) (count : Int) :
    (fetchDetailedWaveBuoyData env buoy count).2 =
        [.getDirectionalSpectra buoy.stationID] ∨
      (fetchDetailedWaveBuoyData env buoy count).2 =
        [.getDirectionalSpectra buoy.stationID, .getEnergySpectra buoy.stationID] ∨
      (fetchDetailedWaveBuoyData env buoy count).2 =
        [.getDirectionalSpectra buoy.stationID, .getEnergySpectra buoy.stationID,
         .parseWaveSpectra] := by
  unfold fetchDetailedWaveBuoyData
  cases env.getDirectionalSpectra buoy.stationID with
  | error e => simp
  | ok d => cases env.getEnergySpectra buoy.stationID <;> simp

theorem fetchDirectionalSpectraChart_trace (env : Env) (sid : String) (d : BuoyData) :
    (fetchDirectionalSpectraChart env sid d).2 = [.postChart .directional sid] := by
  unfold fetchDirectionalSpectraChart
  cases env.postChart .directional sid d <;> simp

theorem fetchSpectraDistributionChart_trace (env : Env) (sid : String) (d : BuoyData) :
    (fetchSpectraDistributionChart env sid d).2 = [.postChart .spectraDistribution sid] := by
  unfold fetchSpectraDistributionChart
  cases env.postChart .spectraDistribution sid d <;> simp

/-! ## A concrete all-success environment (used by witnesses and
counterexamples) together with failing variants -/

/-- The buoy used by the concrete environments below. -/
def testBuoy : Buoy := { stationID := "44017", location := ⟨41, -71⟩, state := "" }

/-- An environment in which every upstream call and every parse succeeds.
The JSON serializer renders the container's requested date, making the
epoch actually used by a handler observable in the response body. -/
def baseEnv : Env :=
  { getStations := .ok "<stations-xml>"
    getLatestReading := fun _ => .ok "latest-raw"
    getStandardData := fun _ => .ok "standard-raw"
    getDirectionalSpectra := fun _ => .ok "alpha-raw"
    getEnergySpectra := fun _ => .ok "energy-raw"
    postChart := fun _ _ _ => .ok "png-bytes"
    unmarshalStations := fun s => (s, none)
    findClosestActiveWaveBuoy := fun _ _ => some testBuoy
    findBuoyByID := fun _ sid => some { testBuoy with stationID := sid }
    parseRawLatestBuoyData := fun st raw => (st ++ "|" ++ raw, none)
    parseRawStandardData := fun st _ _ => (st ++ "|std", none)
    parseRawWaveSpectraData := fun st _ _ _ => (st ++ "|wave", none)
    findConditionsForDateAndTime := fun b _ => (b.state, 3600)
    changeUnits := fun d _ => d
    marshalClosestBuoy := fun c _ => .ok (toString c.requestedDate)
    stationsToJSON := fun s => (s, none)
    buoyToJSON := fun b => .ok b.stationID
    parseFloat := fun _ => (0, none)
    base64Encode := fun s => s
    renderBuoyTemplate := fun c => .ok c.buoyStationID
    now := 1700000000
    sinceHours := fun _ => 5 }

/-- Variant: the station-directory GET fails. -/
def envStationsFail : Env := { baseEnv with getStations := .error ⟨"dial tcp: timeout"⟩ }

/-- Variant: the directory parses but no closest buoy is found. -/
def envNoClosest : Env := { baseEnv with findClosestActiveWaveBuoy := fun _ _ => none }

/-- Variant: the directory parses but the requested ID is unknown. -/
def envNoByID : Env := { baseEnv with findBuoyByID := fun _ _ => none }

/-- Variant: the directional-spectra GET fails. -/
def envDirFail : Env :=
  { baseEnv with getDirectionalSpectra := fun _ => .error ⟨"dir: connection reset"⟩ }

/-- Variant: the energy-spectra GET fails. -/
def envEnergyFail : Env :=
  { baseEnv with getEnergySpectra := fun _ => .error ⟨"energy: connection reset"⟩ }

/-- Variant: both chart POSTs fail. -/
def envChartsFail : Env :=
  { baseEnv with postChart := fun _ _ _ => .error ⟨"export: 503"⟩ }

/-- Variant: JSON serialization of the container fails (as `json.Marshal`
does on NaN or infinite floats in the reading). -/
def envMarshalFail : Env :=
  { baseEnv with marshalClosestBuoy := fun _ _ => .error ⟨"json: unsupported value: NaN"⟩ }

/-- Variant: the station-directory XML does not parse; `xml.Unmarshal`
returns an error (discarded by the code) and an empty stations value. -/
def envBadXML : Env :=
  { baseEnv with unmarshalStations := fun _ => ("", some ⟨"XML syntax error on line 1"⟩) }

/-- A typical coordinate-plus-epoch request. -/
def wReq : Request := { lat := "41.0", lon := "-71.0", epoch := "1500000000" }

/-! ## Per-helper trace corollaries -/

theorem countStations_fetchLatest (env : Env) (buoy : Buoy) :
    countStations (fetchLatestBuoyData env buoy).2 = 0 := by
  rcases fetchLatestBuoyData_trace env buoy with h | h <;> simp [h, countStations]

theorem countStations_fetchStandard (env : Env) (buoy : Buoy) (count : Int) :
    countStations (fetchStandardBuoyData env buoy count).2 = 0 := by
  rcases fetchStandardBuoyData_trace env buoy count with h | h <;> simp [h, countStations]

theorem countStations_fetchDetailed (env : Env) (buoy : Buoy) (count : Int) :
    countStations (fetchDetailedWaveBuoyData env buoy count).2 = 0 := by
  rcases fetchDetailedWaveBuoyData_trace env buoy count with h | h | h <;>
    simp [h, countStations]

theorem countStations_dirChart (env : Env) (sid : String) (d : BuoyData) :
    countStations (fetchDirectionalSpectraChart env sid d).2 = 0 := by
  rw [fetchDirectionalSpectraChart_trace]; rfl

theorem countStations_specChart (env : Env) (sid : String) (d : BuoyData) :
    countStations (fetchSpectraDistributionChart env sid d).2 = 0 := by
  rw [fetchSpectraDistributionChart_trace]; rfl

theorem allFormat_fetchClosest (env : Env) (loc : Location) (fmt : ReadingFormat) :
    ((fetchClosestBuoy env loc).2.all (eventFormatOK fmt)) = true := by
  rw [fetchClosestBuoy_trace]; rfl

theorem allFormat_fetchByID (env : Env) (sid : String) (fmt : ReadingFormat) :
    ((fetchBuoyWithID env sid).2.all (eventFormatOK fmt)) = true := by
  rw [fetchBuoyWithID_trace]; rfl

theorem allFormat_fetchLatest (env : Env) (buoy : Buoy) :
    ((fetchLatestBuoyData env buoy).2.all (eventFormatOK .latestReading)) = true := by
  rcases fetchLatestBuoyData_trace env buoy with h | h <;> rw [h] <;> rfl

theorem allFormat_fetchStandard (env : Env) (buoy : Buoy) (count : Int) :
    ((fetchStandardBuoyData env buoy count).2.all (eventFormatOK .standardMet)) = true := by
  rcases fetchStandardBuoyData_trace env buoy count with h | h <;> rw [h] <;> rfl

theorem allFormat_fetchDetailed (env : Env) (buoy : Buoy) (count : Int) :
    ((fetchDetailedWaveBuoyData env buoy count).2.all (eventFormatOK .waveSpectra)) = true := by
  rcases fetchDetailedWaveBuoyData_trace env buoy count with h | h | h <;> rw [h] <;> rfl

theorem allFormat_dirChart (env : Env) (sid : String) (d : BuoyData) (fmt : ReadingFormat) :
    ((fetchDirectionalSpectraChart env sid d).2.all (eventFormatOK fmt)) = true := by
  rw [fetchDirectionalSpectraChart_trace]; rfl

theorem allFormat_specChart (env : Env) (sid : String) (d : BuoyData) (fmt : ReadingFormat) :
    ((fetchSpectraDistributionChart env sid d).2.all (eventFormatOK fmt)) = true := by
  rw [fetchSpectraDistributionChart_trace]; rfl

/-! ## Claims -/

/-- Claim C4: `fetchClosestBuoy` returns a non-nil error if and only if the
station-directory download fails or `FindClosestActiveWaveBuoy` yields no
buoy for the requested location, and otherwise returns the found buoy with
a nil error; likewise `fetchBuoyWithID` errs exactly when the download
fails or no station with the given ID exists in the directory.  Stated as
the three exhaustive, mutually exclusive cases of each function. -/
theorem claim_C4 :
    (∀ (env : Env) (loc : Location) (e : GoError),
      env.getStations = .error e → (fetchClosestBuoy env loc).1 = .error e) ∧
    (∀ (env : Env) (loc : Location) (s : String),
      env.getStations = .ok s →
      env.findClosestActiveWaveBuoy (env.unmarshalStations s).1 loc = none →
      (fetchClosestBuoy env loc).1 = .error ⟨"Could not find the closest buoy"⟩) ∧
    (∀ (env : Env) (loc : Location) (s : String) (b : Buoy),
      env.getStations = .ok s →
      env.findClosestActiveWaveBuoy (env.unmarshalStations s).1 loc = some b →
      (fetchClosestBuoy env loc).1 = .ok b) ∧
    (∀ (env : Env) (sid : String) (e : GoError),
      env.getStations = .error e → (fetchBuoyWithID env sid).1 = .error e) ∧
    (∀ (env : Env) (sid s : String),
      env.getStations = .ok s →
      env.findBuoyByID (env.unmarshalStations s).1 sid = none →
      (fetchBuoyWithID env sid).1 = .error ⟨"Could not find the requested buoy"⟩) ∧
    (∀ (env : Env) (sid s : String) (b : Buoy),
      env.getStations = .ok s →
      env.findBuoyByID (env.unmarshalStations s).1 sid = some b →
      (fetchBuoyWithID env sid).1 = .ok b) := by
  refine ⟨?_, ?_, ?_, ?_, ?_, ?_⟩
  · intro env loc e h
    simp [fetchClosestBuoy, h]
  · intro env loc s h1 h2
    simp [fetchClosestBuoy, h1, h2]
  · intro env loc s b h1 h2
    simp [fetchClosestBuoy, h1, h2]
  · intro env sid e h
    simp [fetchBuoyWithID, h]
  · intro env sid s h1 h2
    simp [fetchBuoyWithID, h1, h2]
  · intro env sid s b h1 h2
    simp [fetchBuoyWithID, h1, h2]

/-- Witness for C4: all six cases exercised at concrete environments. -/
theorem claim_C4_witness :
    (fetchClosestBuoy envStationsFail ⟨41, -71⟩).1 = .error ⟨"dial tcp: timeout"⟩ ∧
    (fetchClosestBuoy envNoClosest ⟨41, -71⟩).1 =
      .error ⟨"Could not find the closest buoy"⟩ ∧
    (fetchClosestBuoy baseEnv ⟨41, -71⟩).1 = .ok testBuoy ∧
    (fetchBuoyWithID envStationsFail "44017").1 = .error ⟨"dial tcp: timeout"⟩ ∧
    (fetchBuoyWithID envNoByID "44017").1 =
      .error ⟨"Could not find the requested buoy"⟩ ∧
    (fetchBuoyWithID baseEnv "44017").1 = .ok { testBuoy with stationID := "44017" } :=
  ⟨claim_C4.1 envStationsFail ⟨41, -71⟩ _ rfl,
   claim_C4.2.1 envNoClosest ⟨41, -71⟩ "<stations-xml>" rfl rfl,
   claim_C4.2.2.1 baseEnv ⟨41, -71⟩ "<stations-xml>" testBuoy rfl rfl,
   claim_C4.2.2.2.1 envStationsFail "44017" _ rfl,
   claim_C4.2.2.2.2.1 envNoByID "44017" "<stations-xml>" rfl rfl,
   claim_C4.2.2.2.2.2 baseEnv "44017" "<stations-xml>" _ rfl rfl⟩

/-- Claim C5: `fetchDetailedWaveBuoyData` issues the directional-spectra
request first and the energy-spectra request second and nothing else; if
the directional request fails, that error is returned, the energy request
is never issued and the buoy is unchanged; if the energy request fails,
that error is returned and the buoy is unchanged; only after both fetches
succeed is the single `ParseRawWaveSpectraData` call made, which alone
updates the buoy's parsed state. -/
theorem claim_C5 :
    (∀ (env : Env) (buoy : Buoy) (count : Int) (e : GoError),
      env.getDirectionalSpectra buoy.stationID = .error e →
      fetchDetailedWaveBuoyData env buoy count =
        ((buoy, some e), [.getDirectionalSpectra buoy.stationID])) ∧
    (∀ (env : Env) (buoy : Buoy) (count : Int) (d : String) (e : GoError),
      env.getDirectionalSpectra buoy.stationID = .ok d →
      env.getEnergySpectra buoy.stationID = .error e →
      fetchDetailedWaveBuoyData env buoy count =
        ((buoy, some e),
         [.getDirectionalSpectra buoy.stationID, .getEnergySpectra buoy.stationID])) ∧
    (∀ (env : Env) (buoy : Buoy) (count : Int) (d en : String),
      env.getDirectionalSpectra buoy.stationID = .ok d →
      env.getEnergySpectra buoy.stationID = .ok en →
      fetchDetailedWaveBuoyData env buoy count =
        (({ buoy with
              state := (env.parseRawWaveSpectraData buoy.state (splitLines d)
                (splitLines en) count).1 },
          (env.parseRawWaveSpectraData buoy.state (splitLines d) (splitLines en) count).2),
         [.getDirectionalSpectra buoy.stationID, .getEnergySpectra buoy.stationID,
          .parseWaveSpectra])) := by
  refine ⟨?_, ?_, ?_⟩
  · intro env buoy count e h
    simp [fetchDetailedWaveBuoyData, h]
  · intro env buoy count d e h1 h2
    simp [fetchDetailedWaveBuoyData, h1, h2]
  · intro env buoy count d en h1 h2
    simp [fetchDetailedWaveBuoyData, h1, h2]

/-- Witness for C5: the three cases at concrete environments. -/
theorem claim_C5_witness :
    fetchDetailedWaveBuoyData envDirFail testBuoy 3 =
      ((testBuoy, some ⟨"dir: connection reset"⟩), [.getDirectionalSpectra "44017"]) ∧
    fetchDetailedWaveBuoyData envEnergyFail testBuoy 3 =
      ((testBuoy, some ⟨"energy: connection reset"⟩),
       [.getDirectionalSpectra "44017", .getEnergySpectra "44017"]) ∧
    fetchDetailedWaveBuoyData baseEnv testBuoy 3 =
      (({ testBuoy with state := "|wave" }, none),
       [.getDirectionalSpectra "44017", .getEnergySpectra "44017", .parseWaveSpectra]) := by
  refine ⟨?_, ?_, ?_⟩
  · rw [claim_C5.1 envDirFail testBuoy 3 _ rfl]
    rfl
  · rw [claim_C5.2.1 envEnergyFail testBuoy 3 "alpha-raw" _ rfl rfl]
    rfl
  · rw [claim_C5.2.2 baseEnv testBuoy 3 "alpha-raw" "energy-raw" rfl rfl]
    rfl

/-- Counterexample for C2 as stated: an environment in which the
station-directory fetch succeeds and yields a buoy, and the buoy-data
fetches and the parse succeed (`.1.2 = none`), yet `closestWaveDateHandler`
responds with a plain-text HTTP 500 — because the JSON serialization of
the container fails (as `json.MarshalIndent` does on NaN/infinite floats).
The claim omits the success of the serialization from its preconditions. -/
theorem claim_C2_counterexample :
    (fetchClosestBuoy envMarshalFail (requestedLocationOf envMarshalFail wReq)).1 =
      .ok testBuoy ∧
    (fetchDetailedWaveBuoyData envMarshalFail testBuoy
      (sinceHoursCount envMarshalFail (requestedEpochDate wReq))).1.2 = none ∧
    closestWaveDateHandler envMarshalFail wReq =
      (httpError "json: unsupported value: NaN" 500,
       [.getStations, .getDirectionalSpectra "44017", .getEnergySpectra "44017",
        .parseWaveSpectra]) :=
  ⟨rfl, rfl, rfl⟩

/-- Claim C2 (amended): for every coordinate-plus-epoch wave request on
which the station-directory fetch and lookup succeed, the two buoy-data
fetches and the parse succeed, and additionally the JSON serialization of
the container succeeds, `closestWaveDateHandler` responds with status 200,
Content-Type `application/json`, Access-Control-Allow-Origin `*`, and a
body that is exactly the four-space-indented serialization of the
`ClosestBuoy` container carrying the requested location, requested date,
time difference found, the chosen buoy's station ID and location, and the
parsed buoy data (and nothing in the plot fields). -/
theorem claim_C2 (env : Env) (req : Request) (b : Buoy) (js : String)
    (h1 : (fetchClosestBuoy env (requestedLocationOf env req)).1 = .ok b)
    (h2 : (fetchDetailedWaveBuoyData env b
      (sinceHoursCount env (requestedEpochDate req))).1.2 = none)
    (h3 : env.marshalClosestBuoy
      { requestedLocation := requestedLocationOf env req
        requestedDate := requestedEpochDate req
        timeDiffFound := (env.findConditionsForDateAndTime
          (fetchDetailedWaveBuoyData env b
            (sinceHoursCount env (requestedEpochDate req))).1.1
          (requestedEpochDate req)).2
        buoyStationID := (fetchDetailedWaveBuoyData env b
          (sinceHoursCount env (requestedEpochDate req))).1.1.stationID
        buoyLocation := (fetchDetailedWaveBuoyData env b
          (sinceHoursCount env (requestedEpochDate req))).1.1.location
        buoyData := (env.findConditionsForDateAndTime
          (fetchDetailedWaveBuoyData env b
            (sinceHoursCount env (requestedEpochDate req))).1.1
          (requestedEpochDate req)).1 } jsonIndent = .ok js) :
    closestWaveDateHandler env req =
      (jsonResponse js,
       (fetchClosestBuoy env (requestedLocationOf env req)).2 ++
         (fetchDetailedWaveBuoyData env b
           (sinceHoursCount env (requestedEpochDate req))).2) := by
  simp only [closestWaveDateHandler, h1, h2, h3]

/-- Witness for C2 at the all-success environment: the body is the
serialized container (here rendered as its requested date). -/
theorem claim_C2_witness :
    closestWaveDateHandler baseEnv wReq =
      (jsonResponse "1500000000",
       [.getStations, .getDirectionalSpectra "44017", .getEnergySpectra "44017",
        .parseWaveSpectra]) := by
  rw [claim_C2 baseEnv wReq testBuoy "1500000000" rfl rfl rfl]
  rfl

/-- The plot-blanking step shared by all chart-decorated handlers
(for example `buoyfinder.go:473-481`): the plot string returned by a chart
helper, or the empty string when the helper returned an error. -/
def plotOrEmpty (chartRes : (String × Option GoError) × List Event) : String :=
  match chartRes.1.2 with
  | some _ => ""
  | none => chartRes.1.1

/-- Variant environment: only the directional chart POST fails, the
spectra-distribution POST succeeds. -/
def envDirChartFail : Env :=
  { baseEnv with postChart := fun k _ _ =>
      if k = ChartKind.directional then .error ⟨"export: 503"⟩ else .ok "png-bytes" }

/-- Claim C3: chart rendering is optional decoration.  If
`fetchDirectionalSpectraChart` or `fetchSpectraDistributionChart` returns
an error, the corresponding plot field (`plotOrEmpty` of that helper's
result) is the empty string — each independently of the other.  And for
each of the five chart-decorated responses (`closestLatestWaveChartsHandler`,
`closestWaveChartsDateHandler`, `latestWaveIDChartsHandler`,
`dateWaveIDChartsHandler`, `buoyViewHandler`), whatever the two chart
fetches return — both failing, either one alone failing, or neither — the
handler still completes the response successfully (status 200, body
produced from the container whose plot fields are the correspondingly
blanked chart results): a chart-service failure never causes an HTTP error
response. -/
theorem claim_C3 :
    (∀ (env : Env) (sid : String) (d : BuoyData) (e : GoError),
      env.postChart .directional sid d = .error e →
      plotOrEmpty (fetchDirectionalSpectraChart env sid d) = "") ∧
    (∀ (env : Env) (sid : String) (d : BuoyData) (e : GoError),
      env.postChart .spectraDistribution sid d = .error e →
      plotOrEmpty (fetchSpectraDistributionChart env sid d) = "") ∧
    (∀ (env : Env) (req : Request) (b : Buoy) (js : String),
      (fetchClosestBuoy env (requestedLocationOf env req)).1 = .ok b →
      (fetchDetailedWaveBuoyData env b 1).1.2 = none →
      env.marshalClosestBuoy
        { requestedLocation := requestedLocationOf env req
          requestedDate := requestedEpochDate req
          timeDiffFound := (env.findConditionsForDateAndTime
            (fetchDetailedWaveBuoyData env b 1).1.1 (requestedEpochDate req)).2
          buoyStationID := (fetchDetailedWaveBuoyData env b 1).1.1.stationID
          buoyLocation := (fetchDetailedWaveBuoyData env b 1).1.1.location
          buoyData := (env.findConditionsForDateAndTime
            (fetchDetailedWaveBuoyData env b 1).1.1 (requestedEpochDate req)).1
          directionalSpectraPlot := plotOrEmpty (fetchDirectionalSpectraChart env
            (fetchDetailedWaveBuoyData env b 1).1.1.stationID
            (env.findConditionsForDateAndTime
              (fetchDetailedWaveBuoyData env b 1).1.1 (requestedEpochDate req)).1)
          spectraDistributionPlot := plotOrEmpty (fetchSpectraDistributionChart env
            (fetchDetailedWaveBuoyData env b 1).1.1.stationID
            (env.findConditionsForDateAndTime
              (fetchDetailedWaveBuoyData env b 1).1.1 (requestedEpochDate req)).1) }
        jsonIndent = .ok js →
      closestLatestWaveChartsHandler env req =
        (jsonResponse js,
         (fetchClosestBuoy env (requestedLocationOf env req)).2 ++
           (fetchDetailedWaveBuoyData env b 1).2 ++
           [.postChart .directional (fetchDetailedWaveBuoyData env b 1).1.1.stationID] ++
           [.postChart .spectraDistribution
             (fetchDetailedWaveBuoyData env b 1).1.1.stationID])) ∧
    (∀ (env : Env) (req : Request) (b : Buoy) (js : String),
      (fetchClosestBuoy env (requestedLocationOf env req)).1 = .ok b →
      (fetchDetailedWaveBuoyData env b
        (sinceHoursCount env (requestedEpochDate req))).1.2 = none →
      env.marshalClosestBuoy
        { requestedLocation := requestedLocationOf env req
          requestedDate := requestedEpochDate req
          timeDiffFound := (env.findConditionsForDateAndTime
            (fetchDetailedWaveBuoyData env b
              (sinceHoursCount env (requestedEpochDate req))).1.1
            (requestedEpochDate req)).2
          buoyStationID := (fetchDetailedWaveBuoyData env b
            (sinceHoursCount env (requestedEpochDate req))).1.1.stationID
          buoyLocation := (fetchDetailedWaveBuoyData env b
            (sinceHoursCount env (requestedEpochDate req))).1.1.location
          buoyData := (env.findConditionsForDateAndTime
            (fetchDetailedWaveBuoyData env b
              (sinceHoursCount env (requestedEpochDate req))).1.1
            (requestedEpochDate req)).1
          directionalSpectraPlot := plotOrEmpty (fetchDirectionalSpectraChart env
            (fetchDetailedWaveBuoyData env b
              (sinceHoursCount env (requestedEpochDate req))).1.1.stationID
            (env.findConditionsForDateAndTime
              (fetchDetailedWaveBuoyData env b
                (sinceHoursCount env (requestedEpochDate req))).1.1
              (requestedEpochDate req)).1)
          spectraDistributionPlot := plotOrEmpty (fetchSpectraDistributionChart env
            (fetchDetailedWaveBuoyData env b
              (sinceHoursCount env (requestedEpochDate req))).1.1.stationID
            (env.findConditionsForDateAndTime
              (fetchDetailedWaveBuoyData env b
                (sinceHoursCount env (requestedEpochDate req))).1.1
              (requestedEpochDate req)).1) }
        jsonIndent = .ok js →
      closestWaveChartsDateHandler env req =
        (jsonResponse js,
         (fetchClosestBuoy env (requestedLocationOf env req)).2 ++
           (fetchDetailedWaveBuoyData env b
             (sinceHoursCount env (requestedEpochDate req))).2 ++
           [.postChart .directional
             (fetchDetailedWaveBuoyData env b
               (sinceHoursCount env (requestedEpochDate req))).1.1.stationID] ++
           [.postChart .spectraDistribution
             (fetchDetailedWaveBuoyData env b
               (sinceHoursCount env (requestedEpochDate req))).1.1.stationID])) ∧
    (∀ (env : Env) (req : Request) (js : String),
      (fetchDetailedWaveBuoyData env { stationID := req.station } 1).1.2 = none →
      env.marshalClosestBuoy
        { requestedDate := env.now
          timeDiffFound := (env.findConditionsForDateAndTime
            (fetchDetailedWaveBuoyData env { stationID := req.station } 1).1.1 env.now).2
          buoyStationID :=
            (fetchDetailedWaveBuoyData env { stationID := req.station } 1).1.1.stationID
          buoyData := (env.findConditionsForDateAndTime
            (fetchDetailedWaveBuoyData env { stationID := req.station } 1).1.1 env.now).1
          directionalSpectraPlot := plotOrEmpty (fetchDirectionalSpectraChart env
            req.station
            (env.findConditionsForDateAndTime
              (fetchDetailedWaveBuoyData env { stationID := req.station } 1).1.1
              env.now).1)
          spectraDistributionPlot := plotOrEmpty (fetchSpectraDistributionChart env
            req.station
            (env.findConditionsForDateAndTime
              (fetchDetailedWaveBuoyData env { stationID := req.station } 1).1.1
              env.now).1) } jsonIndent = .ok js →
      latestWaveIDChartsHandler env req =
        (jsonResponse js,
         (fetchDetailedWaveBuoyData env { stationID := req.station } 1).2 ++
           [.postChart .directional req.station] ++
           [.postChart .spectraDistribution req.station])) ∧
    (∀ (env : Env) (req : Request) (js : String),
      (fetchDetailedWaveBuoyData env { stationID := req.station }
        (sinceHoursTimes2Count env (requestedEpochDate req))).1.2 = none →
      env.marshalClosestBuoy
        { requestedDate := requestedEpochDate req
          timeDiffFound := (env.findConditionsForDateAndTime
            (fetchDetailedWaveBuoyData env { stationID := req.station }
              (sinceHoursTimes2Count env (requestedEpochDate req))).1.1
            (requestedEpochDate req)).2
          buoyStationID :=
            (fetchDetailedWaveBuoyData env { stationID := req.station }
              (sinceHoursTimes2Count env (requestedEpochDate req))).1.1.stationID
          buoyData := (env.findConditionsForDateAndTime
            (fetchDetailedWaveBuoyData env { stationID := req.station }
              (sinceHoursTimes2Count env (requestedEpochDate req))).1.1
            (requestedEpochDate req)).1
          directionalSpectraPlot := plotOrEmpty (fetchDirectionalSpectraChart env
            req.station
            (env.findConditionsForDateAndTime
              (fetchDetailedWaveBuoyData env { stationID := req.station }
                (sinceHoursTimes2Count env (requestedEpochDate req))).1.1
              (requestedEpochDate req)).1)
          spectraDistributionPlot := plotOrEmpty (fetchSpectraDistributionChart env
            req.station
            (env.findConditionsForDateAndTime
              (fetchDetailedWaveBuoyData env { stationID := req.station }
                (sinceHoursTimes2Count env (requestedEpochDate req))).1.1
              (requestedEpochDate req)).1) } jsonIndent = .ok js →
      dateWaveIDChartsHandler env req =
        (jsonResponse js,
         (fetchDetailedWaveBuoyData env { stationID := req.station }
           (sinceHoursTimes2Count env (requestedEpochDate req))).2 ++
           [.postChart .directional req.station] ++
           [.postChart .spectraDistribution req.station])) ∧
    (∀ (env : Env) (req : Request) (html : String),
      (fetchDetailedWaveBuoyData env { stationID := req.station }
        (sinceHoursTimes2Count env env.now + 1)).1.2 = none →
      env.renderBuoyTemplate
        { requestedDate := env.now
          timeDiffFound := (env.findConditionsForDateAndTime
            (fetchDetailedWaveBuoyData env { stationID := req.station }
              (sinceHoursTimes2Count env env.now + 1)).1.1 env.now).2
          buoyStationID :=
            (fetchDetailedWaveBuoyData env { stationID := req.station }
              (sinceHoursTimes2Count env env.now + 1)).1.1.stationID
          buoyData := env.changeUnits
            (env.findConditionsForDateAndTime
              (fetchDetailedWaveBuoyData env { stationID := req.station }
                (sinceHoursTimes2Count env env.now + 1)).1.1 env.now).1 .english
          directionalSpectraPlot := plotOrEmpty (fetchDirectionalSpectraChart env
            req.station
            (env.findConditionsForDateAndTime
              (fetchDetailedWaveBuoyData env { stationID := req.station }
                (sinceHoursTimes2Count env env.now + 1)).1.1 env.now).1)
          spectraDistributionPlot := plotOrEmpty (fetchSpectraDistributionChart env
            req.station
            (env.findConditionsForDateAndTime
              (fetchDetailedWaveBuoyData env { stationID := req.station }
                (sinceHoursTimes2Count env env.now + 1)).1.1 env.now).1) } = .ok html →
      buoyViewHandler env req =
        (htmlResponse html,
         (fetchDetailedWaveBuoyData env { stationID := req.station }
           (sinceHoursTimes2Count env env.now + 1)).2 ++
           [.postChart .directional req.station] ++
           [.postChart .spectraDistribution req.station])) := by
  refine ⟨?_, ?_, ?_, ?_, ?_, ?_, ?_⟩
  · intro env sid d e h
    simp [plotOrEmpty, fetchDirectionalSpectraChart, h]
  · intro env sid d e h
    simp [plotOrEmpty, fetchSpectraDistributionChart, h]
  · intro env req b js h1 h2 h5
    simp only [closestLatestWaveChartsHandler, h1, h2]
    repeat' split
    all_goals simp_all [plotOrEmpty, fetchDirectionalSpectraChart_trace,
      fetchSpectraDistributionChart_trace]
  · intro env req b js h1 h2 h5
    simp only [closestWaveChartsDateHandler, h1, h2]
    repeat' split
    all_goals simp_all [plotOrEmpty, fetchDirectionalSpectraChart_trace,
      fetchSpectraDistributionChart_trace]
  · intro env req js h2 h5
    simp only [latestWaveIDChartsHandler, h2]
    repeat' split
    all_goals simp_all [plotOrEmpty, fetchDirectionalSpectraChart_trace,
      fetchSpectraDistributionChart_trace]
  · intro env req js h2 h5
    simp only [dateWaveIDChartsHandler, h2]
    repeat' split
    all_goals simp_all [plotOrEmpty, fetchDirectionalSpectraChart_trace,
      fetchSpectraDistributionChart_trace]
  · intro env req html h2 h5
    simp only [buoyViewHandler, h2]
    repeat' split
    all_goals simp_all [plotOrEmpty, fetchDirectionalSpectraChart_trace,
      fetchSpectraDistributionChart_trace]

/-- Witness for C3: the blanking facts at concrete failing charts; the
closest-latest charts handler at an environment where only the
directional chart fails (single failure, response still 200); the other
four handlers at the environment where both chart POSTs fail. -/
theorem claim_C3_witness :
    plotOrEmpty (fetchDirectionalSpectraChart envDirChartFail "46042" "d") = "" ∧
    plotOrEmpty (fetchSpectraDistributionChart envChartsFail "46042" "d") = "" ∧
    closestLatestWaveChartsHandler envDirChartFail wReq =
      (jsonResponse "1500000000",
       [.getStations, .getDirectionalSpectra "44017", .getEnergySpectra "44017",
        .parseWaveSpectra, .postChart .directional "44017",
        .postChart .spectraDistribution "44017"]) ∧
    closestWaveChartsDateHandler envChartsFail wReq =
      (jsonResponse "1500000000",
       [.getStations, .getDirectionalSpectra "44017", .getEnergySpectra "44017",
        .parseWaveSpectra, .postChart .directional "44017",
        .postChart .spectraDistribution "44017"]) ∧
    latestWaveIDChartsHandler envChartsFail { station := "46042" } =
      (jsonResponse "1700000000",
       [.getDirectionalSpectra "46042", .getEnergySpectra "46042", .parseWaveSpectra,
        .postChart .directional "46042", .postChart .spectraDistribution "46042"]) ∧
    dateWaveIDChartsHandler envChartsFail { station := "46042", epoch := "1500000000" } =
      (jsonResponse "1500000000",
       [.getDirectionalSpectra "46042", .getEnergySpectra "46042", .parseWaveSpectra,
        .postChart .directional "46042", .postChart .spectraDistribution "46042"]) ∧
    buoyViewHandler envChartsFail { station := "46042" } =
      (htmlResponse "46042",
       [.getDirectionalSpectra "46042", .getEnergySpectra "46042", .parseWaveSpectra,
        .postChart .directional "46042", .postChart .spectraDistribution "46042"]) := by
  refine ⟨?_, ?_, ?_, ?_, ?_, ?_, ?_⟩
  · exact claim_C3.1 envDirChartFail "46042" "d" ⟨"export: 503"⟩ rfl
  · exact claim_C3.2.1 envChartsFail "46042" "d" ⟨"export: 503"⟩ rfl
  · rw [claim_C3.2.2.1 envDirChartFail wReq testBuoy "1500000000" rfl rfl rfl]
    rfl
  · rw [claim_C3.2.2.2.1 envChartsFail wReq testBuoy "1500000000" rfl rfl rfl]
    rfl
  · rw [claim_C3.2.2.2.2.1 envChartsFail { station := "46042" } "1700000000" rfl rfl]
    rfl
  · rw [claim_C3.2.2.2.2.2.1 envChartsFail { station := "46042", epoch := "1500000000" }
      "1500000000" rfl rfl]
    rfl
  · rw [claim_C3.2.2.2.2.2.2 envChartsFail { station := "46042" } "46042" rfl rfl]
    rfl

/-- A station-ID request used by witnesses. -/
def idReq : Request := { station := "46042", epoch := "1500000000" }

/-- Counterexample for C1 as stated: `findAllStationsHandler` discards the
`xml.Unmarshal` error (and the `ToJSON` error) and always writes the
success-status body, so a failed required parse is not translated into an
HTTP error status: in `envBadXML` the directory parse fails yet the
response has status 200.  A failed station-directory GET in this handler is
not translated either — the Go code dereferences the nil response and
panics (modelled as `none`: no response at all). -/
theorem claim_C1_counterexample :
    (envBadXML.unmarshalStations "<stations-xml>").2 =
      some ⟨"XML syntax error on line 1"⟩ ∧
    (findAllStationsHandler envBadXML).1 = some (jsonResponse "") ∧
    (findAllStationsHandler envStationsFail).1 = none :=
  ⟨rfl, rfl, rfl⟩

/-- Claim C1 (amended): for every API request handler except
`findAllStationsHandler` (which discards its fetch, parse, and
serialization errors), a success-status (200) response implies that every
required upstream fetch and parse of that handler succeeded — equivalently,
no such handler writes a success-status body after a required upstream
fetch or parse has failed.  Chart fetches are not required. -/
theorem claim_C1 :
    (∀ (env : Env) (req : Request), (closestWaveDateHandler env req).1.status = 200 →
      ∃ b, (fetchClosestBuoy env (requestedLocationOf env req)).1 = .ok b ∧
        (fetchDetailedWaveBuoyData env b
          (sinceHoursCount env (requestedEpochDate req))).1.2 = none) ∧
    (∀ (env : Env) (req : Request), (closestWaveChartsDateHandler env req).1.status = 200 →
      ∃ b, (fetchClosestBuoy env (requestedLocationOf env req)).1 = .ok b ∧
        (fetchDetailedWaveBuoyData env b
          (sinceHoursCount env (requestedEpochDate req))).1.2 = none) ∧
    (∀ (env : Env) (req : Request), (closestWeatherDateHandler env req).1.status = 200 →
      ∃ b, (fetchClosestBuoy env (requestedLocationOf env req)).1 = .ok b ∧
        (fetchStandardBuoyData env b
          (sinceHoursCount env (requestedEpochDate req))).1.2 = none) ∧
    (∀ (env : Env) (req : Request), (closestLatestHandler env req).1.status = 200 →
      ∃ b, (fetchClosestBuoy env (requestedLocationOf env req)).1 = .ok b ∧
        (fetchLatestBuoyData env b).1.2 = none) ∧
    (∀ (env : Env) (req : Request), (closestLatestWaveHandler env req).1.status = 200 →
      ∃ b, (fetchClosestBuoy env (requestedLocationOf env req)).1 = .ok b ∧
        (fetchDetailedWaveBuoyData env b 1).1.2 = none) ∧
    (∀ (env : Env) (req : Request),
      (closestLatestWaveChartsHandler env req).1.status = 200 →
      ∃ b, (fetchClosestBuoy env (requestedLocationOf env req)).1 = .ok b ∧
        (fetchDetailedWaveBuoyData env b 1).1.2 = none) ∧
    (∀ (env : Env) (req : Request), (closestLatestWeatherHandler env req).1.status = 200 →
      ∃ b, (fetchClosestBuoy env (requestedLocationOf env req)).1 = .ok b ∧
        (fetchStandardBuoyData env b 1).1.2 = none) ∧
    (∀ (env : Env) (req : Request), (latestIDHandler env req).1.status = 200 →
      (fetchLatestBuoyData env { stationID := req.station }).1.2 = none) ∧
    (∀ (env : Env) (req : Request), (latestWaveIDHandler env req).1.status = 200 →
      (fetchDetailedWaveBuoyData env { stationID := req.station } 1).1.2 = none) ∧
    (∀ (env : Env) (req : Request), (latestWaveIDChartsHandler env req).1.status = 200 →
      (fetchDetailedWaveBuoyData env { stationID := req.station } 1).1.2 = none) ∧
    (∀ (env : Env) (req : Request), (latestWeatherIDHandler env req).1.status = 200 →
      (fetchStandardBuoyData env { stationID := req.station } 1).1.2 = none) ∧
    (∀ (env : Env) (req : Request), (dateWaveIDHandler env req).1.status = 200 →
      (fetchDetailedWaveBuoyData env { stationID := req.station }
        (sinceHoursTimes2Count env (requestedEpochDate req))).1.2 = none) ∧
    (∀ (env : Env) (req : Request), (dateWaveIDChartsHandler env req).1.status = 200 →
      (fetchDetailedWaveBuoyData env { stationID := req.station }
        (sinceHoursTimes2Count env (requestedEpochDate req))).1.2 = none) ∧
    (∀ (env : Env) (req : Request), (dateWeatherIDHandler env req).1.status = 200 →
      (fetchStandardBuoyData env { stationID := req.station }
        (sinceHoursTimes2Count env (requestedEpochDate req))).1.2 = none) ∧
    (∀ (env : Env) (req : Request), (findStationInfoHandler env req).1.status = 200 →
      ∃ b, (fetchBuoyWithID env req.station).1 = .ok b) ∧
    (∀ (env : Env) (req : Request), (buoyViewHandler env req).1.status = 200 →
      (fetchDetailedWaveBuoyData env { stationID := req.station }
        (sinceHoursTimes2Count env env.now + 1)).1.2 = none) := by
  refine ⟨?_, ?_, ?_, ?_, ?_, ?_, ?_, ?_, ?_, ?_, ?_, ?_, ?_, ?_, ?_, ?_⟩ <;>
  · intro env req h
    simp only [closestWaveDateHandler, closestWaveChartsDateHandler,
      closestWeatherDateHandler, closestLatestHandler, closestLatestWaveHandler,
      closestLatestWaveChartsHandler, closestLatestWeatherHandler, latestIDHandler,
      latestWaveIDHandler, latestWaveIDChartsHandler, latestWeatherIDHandler,
      dateWaveIDHandler, dateWaveIDChartsHandler, dateWeatherIDHandler,
      findStationInfoHandler, buoyViewHandler] at h
    repeat' split at h
    all_goals first
      | (simp [httpError] at h; done)
      | exact ⟨_, by assumption, by assumption⟩
      | assumption
      | exact ⟨_, by assumption⟩

/-- Witness for C1: each conjunct applied at the all-success environment,
where the 200 status hypothesis holds by evaluation. -/
theorem claim_C1_witness :
    (∃ b, (fetchClosestBuoy baseEnv (requestedLocationOf baseEnv wReq)).1 = .ok b ∧
      (fetchDetailedWaveBuoyData baseEnv b
        (sinceHoursCount baseEnv (requestedEpochDate wReq))).1.2 = none) ∧
    (∃ b, (fetchClosestBuoy baseEnv (requestedLocationOf baseEnv wReq)).1 = .ok b ∧
      (fetchStandardBuoyData baseEnv b
        (sinceHoursCount baseEnv (requestedEpochDate wReq))).1.2 = none) ∧
    (∃ b, (fetchClosestBuoy baseEnv (requestedLocationOf baseEnv wReq)).1 = .ok b ∧
      (fetchLatestBuoyData baseEnv b).1.2 = none) ∧
    (fetchLatestBuoyData baseEnv { stationID := idReq.station }).1.2 = none ∧
    (fetchDetailedWaveBuoyData baseEnv { stationID := idReq.station } 1).1.2 = none ∧
    (fetchStandardBuoyData baseEnv { stationID := idReq.station } 1).1.2 = none ∧
    (fetchDetailedWaveBuoyData baseEnv { stationID := idReq.station }
      (sinceHoursTimes2Count baseEnv (requestedEpochDate idReq))).1.2 = none ∧
    (∃ b, (fetchBuoyWithID baseEnv idReq.station).1 = .ok b) ∧
    (fetchDetailedWaveBuoyData baseEnv { stationID := idReq.station }
      (sinceHoursTimes2Count baseEnv baseEnv.now + 1)).1.2 = none :=
  ⟨claim_C1.1 baseEnv wReq rfl,
   claim_C1.2.2.1 baseEnv wReq rfl,
   claim_C1.2.2.2.1 baseEnv wReq rfl,
   claim_C1.2.2.2.2.2.2.2.1 baseEnv idReq rfl,
   claim_C1.2.2.2.2.2.2.2.2.1 baseEnv idReq rfl,
   claim_C1.2.2.2.2.2.2.2.2.2.2.1 baseEnv idReq rfl,
   claim_C1.2.2.2.2.2.2.2.2.2.2.2.1 baseEnv idReq rfl,
   claim_C1.2.2.2.2.2.2.2.2.2.2.2.2.2.2.1 baseEnv idReq rfl,
   claim_C1.2.2.2.2.2.2.2.2.2.2.2.2.2.2.2 baseEnv idReq rfl⟩

/-- Claim C6: the station directory is fetched exactly once per request
that needs station resolution and never cached.  Every invocation of
`fetchClosestBuoy` or `fetchBuoyWithID` performs exactly one GET of the
active-buoys URL; each coordinate-based handler (and
`findStationInfoHandler`) performs exactly one such GET per request; the
station-ID latest/date handlers and the buoy view, which construct the
buoy directly from the ID, perform zero.  (The model is stateless, so no
result is ever reused across requests.) -/
theorem claim_C6 :
    (∀ (env : Env) (loc : Location), countStations (fetchClosestBuoy env loc).2 = 1) ∧
    (∀ (env : Env) (sid : String), countStations (fetchBuoyWithID env sid).2 = 1) ∧
    (∀ (env : Env) (req : Request),
      countStations (closestWaveDateHandler env req).2 = 1) ∧
    (∀ (env : Env) (req : Request),
      countStations (closestWaveChartsDateHandler env req).2 = 1) ∧
    (∀ (env : Env) (req : Request),
      countStations (closestWeatherDateHandler env req).2 = 1) ∧
    (∀ (env : Env) (req : Request),
      countStations (closestLatestHandler env req).2 = 1) ∧
    (∀ (env : Env) (req : Request),
      countStations (closestLatestWaveHandler env req).2 = 1) ∧
    (∀ (env : Env) (req : Request),
      countStations (closestLatestWaveChartsHandler env req).2 = 1) ∧
    (∀ (env : Env) (req : Request),
      countStations (closestLatestWeatherHandler env req).2 = 1) ∧
    (∀ (env : Env) (req : Request),
      countStations (findStationInfoHandler env req).2 = 1) ∧
    (∀ (env : Env) (req : Request), countStations (latestIDHandler env req).2 = 0) ∧
    (∀ (env : Env) (req : Request), countStations (latestWaveIDHandler env req).2 = 0) ∧
    (∀ (env : Env) (req : Request),
      countStations (latestWaveIDChartsHandler env req).2 = 0) ∧
    (∀ (env : Env) (req : Request), countStations (latestWeatherIDHandler env req).2 = 0) ∧
    (∀ (env : Env) (req : Request), countStations (dateWaveIDHandler env req).2 = 0) ∧
    (∀ (env : Env) (req : Request),
      countStations (dateWaveIDChartsHandler env req).2 = 0) ∧
    (∀ (env : Env) (req : Request), countStations (dateWeatherIDHandler env req).2 = 0) ∧
    (∀ (env : Env) (req : Request), countStations (buoyViewHandler env req).2 = 0) := by
  refine ⟨?_, ?_, ?_, ?_, ?_, ?_, ?_, ?_, ?_, ?_, ?_, ?_, ?_, ?_, ?_, ?_, ?_, ?_⟩ <;>
  · intro env x
    try simp only [closestWaveDateHandler, closestWaveChartsDateHandler,
      closestWeatherDateHandler, closestLatestHandler, closestLatestWaveHandler,
      closestLatestWaveChartsHandler, closestLatestWeatherHandler, latestIDHandler,
      latestWaveIDHandler, latestWaveIDChartsHandler, latestWeatherIDHandler,
      dateWaveIDHandler, dateWaveIDChartsHandler, dateWeatherIDHandler,
      findStationInfoHandler, buoyViewHandler]
    repeat' split
    all_goals simp [countStations_append, fetchClosestBuoy_trace, fetchBuoyWithID_trace,
      countStations_fetchLatest, countStations_fetchStandard, countStations_fetchDetailed,
      countStations_dirChart, countStations_specChart, countStations]

/-- Claim C7: the requested endpoint determines which fixed upstream
reading format is fetched.  The three data helpers always issue exactly
their own format's URL first (`head?` facts); the station-list endpoints
fetch no reading at all; and every handler's trace is format-pure: latest
endpoints only ever fetch the latest-reading URL, weather endpoints only
the standard meteorological URL, wave endpoints (the buoy view included)
only the directional- and energy-spectra URLs.  No handler mixes
formats. -/
theorem claim_C7 :
    (∀ (env : Env) (b : Buoy), (fetchLatestBuoyData env b).2.head? =
      some (.getLatestReading b.stationID)) ∧
    (∀ (env : Env) (b : Buoy) (c : Int), (fetchStandardBuoyData env b c).2.head? =
      some (.getStandardData b.stationID)) ∧
    (∀ (env : Env) (b : Buoy) (c : Int), (fetchDetailedWaveBuoyData env b c).2.head? =
      some (.getDirectionalSpectra b.stationID)) ∧
    (∀ (env : Env), ((findAllStationsHandler env).2.all
      fun e => (eventReadingFormat e).isNone) = true) ∧
    (∀ (env : Env) (req : Request), ((findStationInfoHandler env req).2.all
      fun e => (eventReadingFormat e).isNone) = true) ∧
    (∀ (env : Env) (req : Request),
      ((closestLatestHandler env req).2.all (eventFormatOK .latestReading)) = true) ∧
    (∀ (env : Env) (req : Request),
      ((latestIDHandler env req).2.all (eventFormatOK .latestReading)) = true) ∧
    (∀ (env : Env) (req : Request),
      ((closestWeatherDateHandler env req).2.all (eventFormatOK .standardMet)) = true) ∧
    (∀ (env : Env) (req : Request),
      ((closestLatestWeatherHandler env req).2.all (eventFormatOK .standardMet)) = true) ∧
    (∀ (env : Env) (req : Request),
      ((latestWeatherIDHandler env req).2.all (eventFormatOK .standardMet)) = true) ∧
    (∀ (env : Env) (req : Request),
      ((dateWeatherIDHandler env req).2.all (eventFormatOK .standardMet)) = true) ∧
    (∀ (env : Env) (req : Request),
      ((closestWaveDateHandler env req).2.all (eventFormatOK .waveSpectra)) = true) ∧
    (∀ (env : Env) (req : Request),
      ((closestWaveChartsDateHandler env req).2.all (eventFormatOK .waveSpectra)) = true) ∧
    (∀ (env : Env) (req : Request),
      ((closestLatestWaveHandler env req).2.all (eventFormatOK .waveSpectra)) = true) ∧
    (∀ (env : Env) (req : Request),
      ((closestLatestWaveChartsHandler env req).2.all
        (eventFormatOK .waveSpectra)) = true) ∧
    (∀ (env : Env) (req : Request),
      ((latestWaveIDHandler env req).2.all (eventFormatOK .waveSpectra)) = true) ∧
    (∀ (env : Env) (req : Request),
      ((latestWaveIDChartsHandler env req).2.all (eventFormatOK .waveSpectra)) = true) ∧
    (∀ (env : Env) (req : Request),
      ((dateWaveIDHandler env req).2.all (eventFormatOK .waveSpectra)) = true) ∧
    (∀ (env : Env) (req : Request),
      ((dateWaveIDChartsHandler env req).2.all (eventFormatOK .waveSpectra)) = true) ∧
    (∀ (env : Env) (req : Request),
      ((buoyViewHandler env req).2.all (eventFormatOK .waveSpectra)) = true) := by
  refine ⟨?_, ?_, ?_, ?_, ?_, ?_, ?_, ?_, ?_, ?_, ?_, ?_, ?_, ?_, ?_, ?_, ?_, ?_, ?_, ?_⟩
  · intro env b
    rcases fetchLatestBuoyData_trace env b with h | h <;> simp [h]
  · intro env b c
    rcases fetchStandardBuoyData_trace env b c with h | h <;> simp [h]
  · intro env b c
    rcases fetchDetailedWaveBuoyData_trace env b c with h | h | h <;> simp [h]
  · intro env
    simp only [findAllStationsHandler]
    split <;> simp [eventReadingFormat]
  · intro env req
    simp only [findStationInfoHandler]
    repeat' split
    all_goals simp [fetchBuoyWithID_trace, eventReadingFormat]
  · intro env req
    simp only [closestLatestHandler]
    repeat' split
    all_goals simp [List.all_append, allFormat_fetchClosest, allFormat_fetchByID,
      allFormat_fetchLatest, allFormat_fetchStandard, allFormat_fetchDetailed,
      allFormat_dirChart, allFormat_specChart]
  · intro env req
    simp only [latestIDHandler]
    repeat' split
    all_goals simp [List.all_append, allFormat_fetchClosest, allFormat_fetchByID,
      allFormat_fetchLatest, allFormat_fetchStandard, allFormat_fetchDetailed,
      allFormat_dirChart, allFormat_specChart]
  · intro env req
    simp only [closestWeatherDateHandler]
    repeat' split
    all_goals simp [List.all_append, allFormat_fetchClosest, allFormat_fetchByID,
      allFormat_fetchLatest, allFormat_fetchStandard, allFormat_fetchDetailed,
      allFormat_dirChart, allFormat_specChart]
  · intro env req
    simp only [closestLatestWeatherHandler]
    repeat' split
    all_goals simp [List.all_append, allFormat_fetchClosest, allFormat_fetchByID,
      allFormat_fetchLatest, allFormat_fetchStandard, allFormat_fetchDetailed,
      allFormat_dirChart, allFormat_specChart]
  · intro env req
    simp only [latestWeatherIDHandler]
    repeat' split
    all_goals simp [List.all_append, allFormat_fetchClosest, allFormat_fetchByID,
      allFormat_fetchLatest, allFormat_fetchStandard, allFormat_fetchDetailed,
      allFormat_dirChart, allFormat_specChart]
  · intro env req
    simp only [dateWeatherIDHandler]
    repeat' split
    all_goals simp [List.all_append, allFormat_fetchClosest, allFormat_fetchByID,
      allFormat_fetchLatest, allFormat_fetchStandard, allFormat_fetchDetailed,
      allFormat_dirChart, allFormat_specChart]
  · intro env req
    simp only [closestWaveDateHandler]
    repeat' split
    all_goals simp [List.all_append, allFormat_fetchClosest, allFormat_fetchByID,
      allFormat_fetchLatest, allFormat_fetchStandard, allFormat_fetchDetailed,
      allFormat_dirChart, allFormat_specChart]
  · intro env req
    simp only [closestWaveChartsDateHandler]
    repeat' split
    all_goals simp [List.all_append, allFormat_fetchClosest, allFormat_fetchByID,
      allFormat_fetchLatest, allFormat_fetchStandard, allFormat_fetchDetailed,
      allFormat_dirChart, allFormat_specChart]
  · intro env req
    simp only [closestLatestWaveHandler]
    repeat' split
    all_goals simp [List.all_append, allFormat_fetchClosest, allFormat_fetchByID,
      allFormat_fetchLatest, allFormat_fetchStandard, allFormat_fetchDetailed,
      allFormat_dirChart, allFormat_specChart]
  · intro env req
    simp only [closestLatestWaveChartsHandler]
    repeat' split
    all_goals simp [List.all_append, allFormat_fetchClosest, allFormat_fetchByID,
      allFormat_fetchLatest, allFormat_fetchStandard, allFormat_fetchDetailed,
      allFormat_dirChart, allFormat_specChart]
  · intro env req
    simp only [latestWaveIDHandler]
    repeat' split
    all_goals simp [List.all_append, allFormat_fetchClosest, allFormat_fetchByID,
      allFormat_fetchLatest, allFormat_fetchStandard, allFormat_fetchDetailed,
      allFormat_dirChart, allFormat_specChart]
  · intro env req
    simp only [latestWaveIDChartsHandler]
    repeat' split
    all_goals simp [List.all_append, allFormat_fetchClosest, allFormat_fetchByID,
      allFormat_fetchLatest, allFormat_fetchStandard, allFormat_fetchDetailed,
      allFormat_dirChart, allFormat_specChart]
  · intro env req
    simp only [dateWaveIDHandler]
    repeat' split
    all_goals simp [List.all_append, allFormat_fetchClosest, allFormat_fetchByID,
      allFormat_fetchLatest, allFormat_fetchStandard, allFormat_fetchDetailed,
      allFormat_dirChart, allFormat_specChart]
  · intro env req
    simp only [dateWaveIDChartsHandler]
    repeat' split
    all_goals simp [List.all_append, allFormat_fetchClosest, allFormat_fetchByID,
      allFormat_fetchLatest, allFormat_fetchStandard, allFormat_fetchDetailed,
      allFormat_dirChart, allFormat_specChart]
  · intro env req
    simp only [buoyViewHandler]
    repeat' split
    all_goals simp [List.all_append, allFormat_fetchClosest, allFormat_fetchByID,
      allFormat_fetchLatest, allFormat_fetchStandard, allFormat_fetchDetailed,
      allFormat_dirChart, allFormat_specChart]

/-- Go's `strconv.ParseInt` only returns value 0 together with a syntax
error; every other error case (range) carries a saturated non-zero
value. -/
theorem goParseInt64_syn_or_zero (s : String) :
    (goParseInt64 s).1 = 0 ∨ (goParseInt64 s).2 ≠ some .syn := by
  unfold goParseInt64
  split
  · simp
  · split <;> dsimp only <;> repeat' split
    all_goals simp

/-- Counterexample for C8 as stated: the epoch path variable
"9223372036854775808" fails to parse (`ErrRange`), yet the handler does
not proceed with the zero value (the Unix epoch): it proceeds with the
saturated maximum 9223372036854775807.  In `baseEnv` the serializer
renders the container's requested date, so the 200 response body exhibits
the non-zero epoch the handler actually used. -/
theorem claim_C8_counterexample :
    (goParseInt64 "9223372036854775808").2 = some .range ∧
    (goParseInt64 "9223372036854775808").1 = 9223372036854775807 ∧
    closestWaveDateHandler baseEnv
      { lat := "41.0", lon := "-71.0", epoch := "9223372036854775808" } =
      (jsonResponse "9223372036854775807",
       [.getStations, .getDirectionalSpectra "44017", .getEnergySpectra "44017",
        .parseWaveSpectra]) :=
  ⟨by decide, by decide, rfl⟩

/-- Claim C8 (amended): parameter coercion never rejects a request — the
parse errors of the path variables are discarded and the cited handlers
answer 200 or 500, never a client-error status; the handler proceeds with
exactly the value `strconv.ParseInt` returned alongside the error, which
is the zero value (the Unix epoch) for a syntax error but the saturated
extreme for an out-of-range epoch. -/
theorem claim_C8 :
    (∀ (env : Env) (req : Request), (closestWaveDateHandler env req).1.status = 200 ∨
      (closestWaveDateHandler env req).1.status = 500) ∧
    (∀ (env : Env) (req : Request), (dateWaveIDHandler env req).1.status = 200 ∨
      (dateWaveIDHandler env req).1.status = 500) ∧
    (∀ (req : Request), requestedEpochDate req = timeUnix (goParseInt64 req.epoch).1) ∧
    (∀ (s : String), (goParseInt64 s).2 = some .syn → (goParseInt64 s).1 = 0) := by
  refine ⟨?_, ?_, ?_, ?_⟩
  · intro env req
    simp only [closestWaveDateHandler]
    repeat' split
    all_goals simp [httpError, jsonResponse]
  · intro env req
    simp only [dateWaveIDHandler]
    repeat' split
    all_goals simp [httpError, jsonResponse]
  · intro req
    rfl
  · intro s h
    rcases goParseInt64_syn_or_zero s with h0 | hne
    · exact h0
    · exact absurd h hne

/-- Witness for C8: the no-client-error disjunctions at the all-success
environment, and the syntax-error case yielding the zero value at a
concrete malformed epoch. -/
theorem claim_C8_witness :
    ((closestWaveDateHandler baseEnv wReq).1.status = 200 ∨
      (closestWaveDateHandler baseEnv wReq).1.status = 500) ∧
    ((dateWaveIDHandler baseEnv idReq).1.status = 200 ∨
      (dateWaveIDHandler baseEnv idReq).1.status = 500) ∧
    requestedEpochDate idReq = timeUnix (goParseInt64 idReq.epoch).1 ∧
    (goParseInt64 "not-a-number").1 = 0 :=
  ⟨claim_C8.1 baseEnv wReq, claim_C8.2.1 baseEnv idReq, claim_C8.2.2.1 idReq,
   claim_C8.2.2.2 "not-a-number" (by decide)⟩

/-- The interpolation loop falls through exactly when no adjacent keypoint
pair's interval contains `t`. -/
theorem interpolateLoop_eq_none_iff {C : Type} (bl : C → C → Rat → C) (cl : C → C)
    (l : Gradient C) (t : Rat) :
    interpolateLoop bl cl l t = none ↔ hasWindow t l = false := by
  induction l with
  | nil => simp [interpolateLoop, hasWindow]
  | cons a l ih =>
    cases l with
    | nil => simp [interpolateLoop, hasWindow]
    | cons b l2 =>
      by_cases h : a.pos ≤ t ∧ t ≤ b.pos
      · simp [interpolateLoop, hasWindow, h]
      · simp [interpolateLoop, hasWindow, h, ih]

/-- Below the first keypoint of a sorted gradient no interval contains
`t`. -/
theorem hasWindow_eq_false_of_lt_head {C : Type} (t : Rat) :
    ∀ (l : List (GradientKeypoint C)) (a : GradientKeypoint C),
      List.Chain' (fun x y => x.pos ≤ y.pos) (a :: l) → t < a.pos →
      hasWindow t (a :: l) = false := by
  intro l
  induction l with
  | nil =>
    intro a _ _
    rfl
  | cons b l2 ih =>
    intro a hchain hlt
    have hab : a.pos ≤ b.pos := (List.chain'_cons.mp hchain).1
    have hchain2 := (List.chain'_cons.mp hchain).2
    have h1 : ¬(a.pos ≤ t ∧ t ≤ b.pos) := fun hc => absurd hc.1 (not_le.mpr hlt)
    simp only [hasWindow, Bool.or_eq_false_iff, decide_eq_false_iff_not]
    exact ⟨h1, ih b hchain2 (hlt.trans_le hab)⟩

/-- The loop returns the blend of the first adjacent pair whose interval
contains `t`. -/
theorem interpolateLoop_first_window {C : Type} (bl : C → C → Rat → C) (cl : C → C)
    (t : Rat) :
    ∀ (l₁ : List (GradientKeypoint C)) (a b : GradientKeypoint C)
      (l₂ : List (GradientKeypoint C)),
      hasWindow t (l₁ ++ [a]) = false → a.pos ≤ t → t ≤ b.pos →
      interpolateLoop bl cl (l₁ ++ a :: b :: l₂) t =
        some (cl (bl a.col b.col ((t - a.pos) / (b.pos - a.pos)))) := by
  intro l₁
  induction l₁ with
  | nil =>
    intro a b l₂ _ ha hb
    simp [interpolateLoop, ha, hb]
  | cons c l₁' ih =>
    intro a b l₂ h ha hb
    cases l₁' with
    | nil =>
      simp only [List.cons_append, List.nil_append, hasWindow, Bool.or_eq_false_iff,
        decide_eq_false_iff_not] at h
      simp [interpolateLoop, h.1, ha, hb]
    | cons d l₁'' =>
      simp only [List.cons_append, hasWindow, Bool.or_eq_false_iff,
        decide_eq_false_iff_not] at h
      have step : interpolateLoop bl cl (c :: d :: (l₁'' ++ a :: b :: l₂)) t =
          interpolateLoop bl cl (d :: (l₁'' ++ a :: b :: l₂)) t := by
        simp [interpolateLoop, h.1]
      simp only [List.cons_append]
      rw [step]
      exact ih a b l₂ h.2 ha hb

/-- Claim C9: for every non-empty gradient whose keypoint positions are
sorted ascending, `GetInterpolatedColorFor` returns the last keypoint's
color for every `t` outside all keypoint intervals (no adjacent pair's
interval contains `t`) — including every `t` strictly below the first
keypoint's position, which yields the last keypoint's color, not the
first's — and for `t` inside an interval (the first adjacent pair
containing it) it returns the clamped HCL blend of the two surrounding
keypoints. -/
theorem claim_C9 {C : Type} (blendHcl : C → C → Rat → C) (clamped : C → C)
    (self : Gradient C) (hne : self ≠ [])
    (hsorted : List.Chain' (fun x y => x.pos ≤ y.pos) self) :
    (∀ t : Rat, hasWindow t self = false →
      GetInterpolatedColorFor blendHcl clamped self t = some ((self.getLast hne).col)) ∧
    (∀ (t : Rat) (a : GradientKeypoint C) (rest : List (GradientKeypoint C)),
      self = a :: rest → t < a.pos →
      GetInterpolatedColorFor blendHcl clamped self t = some ((self.getLast hne).col)) ∧
    (∀ (t : Rat) (l₁ : List (GradientKeypoint C)) (a b : GradientKeypoint C)
        (l₂ : List (GradientKeypoint C)),
      self = l₁ ++ a :: b :: l₂ → hasWindow t (l₁ ++ [a]) = false →
      a.pos ≤ t → t ≤ b.pos →
      GetInterpolatedColorFor blendHcl clamped self t =
        some (clamped (blendHcl a.col b.col ((t - a.pos) / (b.pos - a.pos))))) := by
  have outside : ∀ t : Rat, hasWindow t self = false →
      GetInterpolatedColorFor blendHcl clamped self t = some ((self.getLast hne).col) := by
    intro t h
    unfold GetInterpolatedColorFor
    rw [(interpolateLoop_eq_none_iff blendHcl clamped self t).mpr h,
      List.getLast?_eq_getLast_of_ne_nil hne]
    rfl
  refine ⟨outside, ?_, ?_⟩
  · intro t a rest hself hlt
    apply outside
    subst hself
    exact hasWindow_eq_false_of_lt_head t rest a hsorted hlt
  · intro t l₁ a b l₂ hself h ha hb
    unfold GetInterpolatedColorFor
    subst hself
    rw [interpolateLoop_first_window blendHcl clamped t l₁ a b l₂ h ha hb]

/-- Witness for C9 on a concrete three-keypoint gradient over string
colors: a `t` beyond the last keypoint, a `t` strictly below the first
keypoint (both yield the last color), and a `t` inside the first
interval. -/
theorem claim_C9_witness :
    GetInterpolatedColorFor (fun x y _ => x ++ "-" ++ y) (fun x => x)
      [⟨"r", 0⟩, ⟨"g", 1⟩, ⟨"b", 2⟩] 3 = some "b" ∧
    GetInterpolatedColorFor (fun x y _ => x ++ "-" ++ y) (fun x => x)
      [⟨"r", 0⟩, ⟨"g", 1⟩, ⟨"b", 2⟩] (-1) = some "b" ∧
    GetInterpolatedColorFor (fun x y _ => x ++ "-" ++ y) (fun x => x)
      [⟨"r", 0⟩, ⟨"g", 1⟩, ⟨"b", 2⟩] 0 = some "r-g" := by
  refine ⟨?_, ?_, ?_⟩
  · rw [(claim_C9 (fun x y _ => x ++ "-" ++ y) (fun x => x)
      [⟨"r", 0⟩, ⟨"g", 1⟩, ⟨"b", 2⟩] (List.cons_ne_nil _ _)
      (by simp [List.chain'_cons])).1 3 (by decide)]
    rfl
  · rw [(claim_C9 (fun x y _ => x ++ "-" ++ y) (fun x => x)
      [⟨"r", 0⟩, ⟨"g", 1⟩, ⟨"b", 2⟩] (List.cons_ne_nil _ _)
      (by simp [List.chain'_cons])).2.1 (-1) ⟨"r", 0⟩
      [⟨"g", 1⟩, ⟨"b", 2⟩] rfl (by norm_num)]
    rfl
  · rw [(claim_C9 (fun x y _ => x ++ "-" ++ y) (fun x => x)
      [⟨"r", 0⟩, ⟨"g", 1⟩, ⟨"b", 2⟩] (List.cons_ne_nil _ _)
      (by simp [List.chain'_cons])).2.2 0 [] ⟨"r", 0⟩ ⟨"g", 1⟩
      [⟨"b", 2⟩] rfl rfl (by norm_num) (by norm_num)]
    rfl

/-- Claim C10: `GetInterpolatedColorFor` is total on every non-empty
gradient — the loop indexing never leaves the list and the final
`self[len(self)-1]` access is in bounds, so a color is always returned
(`isSome`); in particular this holds for the 11-keypoint gradient built by
`NewGradient`. -/
theorem claim_C10 :
    (∀ (C : Type) (blendHcl : C → C → Rat → C) (clamped : C → C) (self : Gradient C),
      self ≠ [] → ∀ t : Rat,
        (GetInterpolatedColorFor blendHcl clamped self t).isSome = true) ∧
    (∀ (C : Type) (blendHcl : C → C → Rat → C) (clamped : C → C)
        (mustParseHex : String → C),
      (NewGradient mustParseHex).length = 11 ∧
      ∀ t : Rat,
        (GetInterpolatedColorFor blendHcl clamped (NewGradient mustParseHex) t).isSome =
          true) := by
  have total : ∀ (C : Type) (blendHcl : C → C → Rat → C) (clamped : C → C)
      (self : Gradient C), self ≠ [] → ∀ t : Rat,
      (GetInterpolatedColorFor blendHcl clamped self t).isSome = true := by
    intro C blendHcl clamped self hne t
    unfold GetInterpolatedColorFor
    cases h : interpolateLoop blendHcl clamped self t with
    | some c => rfl
    | none =>
      rw [List.getLast?_eq_getLast_of_ne_nil hne]
      rfl
  refine ⟨total, ?_⟩
  intro C blendHcl clamped mustParseHex
  exact ⟨rfl, total C blendHcl clamped (NewGradient mustParseHex)
    (List.cons_ne_nil _ _)⟩

/-- Witness for C10 on a concrete singleton gradient and a concrete `t`
for `NewGradient` over string colors. -/
theorem claim_C10_witness :
    (GetInterpolatedColorFor (fun x y _ => x ++ y) (fun x => x)
      [⟨"k", 0⟩] 5).isSome = true ∧
    (GetInterpolatedColorFor (fun x y _ => x ++ y) (fun x => x)
      (NewGradient (fun s => s)) (7/10)).isSome = true :=
  ⟨claim_C10.1 String (fun x y _ => x ++ y) (fun x => x) [⟨"k", 0⟩] (by decide) 5,
   (claim_C10.2 String (fun x y _ => x ++ y) (fun x => x) (fun s => s)).2 (7/10)⟩
